import Mathlib

/-! # Classroom data-science front end: verification development

Shallow embedding of the event handlers and route guards of the browser front end
(`App.jsx`, `Login.jsx`, `ExperimentDetail.jsx`, `StudentExperimentSnapshot.jsx`,
`TeacherDashboard.jsx`).  Asynchronous handlers are embedded as pure functions of
the handler's inputs and of the answers given by the external collaborators
(document store, authentication service, script-execution service); what a handler
does to the outside world is recorded as an ordered list of effects.
-/

namespace Coursework

/-! ## JavaScript values -/

/-- Primitive JavaScript values stored in documents.  Numbers are restricted to
integers and `NaN`; `undefined` also stands for a missing field. -/
inductive JsVal where
  | undefined
  | null
  | bool (b : Bool)
  | num (n : Int)
  | nan
  | str (s : String)
  deriving DecidableEq, Repr

namespace JsVal

/-- JavaScript `ToBoolean`. -/
def truthy : JsVal → Bool
  | undefined => false
  | null => false
  | bool b => b
  | num n => n != 0
  | nan => false
  | str s => s != ""

/-- JavaScript `a || b`. -/
def or (a b : JsVal) : JsVal := if a.truthy then a else b

/-- JavaScript `ToString` on primitives. -/
def toStr : JsVal → String
  | undefined => "undefined"
  | null => "null"
  | bool true => "true"
  | bool false => "false"
  | num n => toString n
  | nan => "NaN"
  | str s => s

/-- JavaScript `ToNumber` on the non-string primitives (`none` is `NaN`). -/
def toNum : JsVal → Option Int
  | undefined => none
  | null => some 0
  | bool true => some 1
  | bool false => some 0
  | num n => some n
  | nan => none
  | str _ => none

/-- JavaScript `a + b` on primitives: concatenation as soon as one operand is a
string, numeric addition otherwise. -/
def add : JsVal → JsVal → JsVal
  | str s, b => str (s ++ b.toStr)
  | a, str t => str (a.toStr ++ t)
  | a, b =>
    match a.toNum, b.toNum with
    | some x, some y => num (x + y)
    | _, _ => nan

end JsVal

/-! ## Consistency lab: the slot document and `attemptClaim`
(`TeacherDashboard.jsx`, lines 170-240) -/

/-- The singleton document `global_settings/experiment_slot`. -/
structure SlotDoc where
  status : JsVal
  winner : JsVal
  version : JsVal
  updatedAt : JsVal
  deriving DecidableEq, Repr

/-- The slot as held by the store: `none` when the document does not exist. -/
abbrev SlotStore := Option SlotDoc

/-- The document written by `resetSlot` through `setDoc`; `now` is the server time. -/
def resetSlot (now : Int) (_old : SlotStore) : SlotStore :=
  some { status := .str "available", winner := .null, version := .num 1,
         updatedAt := .num now }

/-- What the callback handed to `runTransaction` does: it either throws, or returns
a value together with the update it buffered through `transaction.update`. -/
inductive TxBody (α : Type) where
  | threw (e : String)
  | returned (value : α) (update : SlotDoc → SlotDoc)

/-- The value returned by the transaction callback of `attemptClaim`. -/
structure TxResult where
  status : String
  version : JsVal
  deriving DecidableEq, Repr

/-- The callback of `runTransaction` inside `attemptClaim` (lines 197-214);
`sfDoc` is what `transaction.get(slotRef)` returned. -/
def claimBody (studentId : String) (now : Int) (sfDoc : SlotStore) : TxBody TxResult :=
  match sfDoc with
  | none => .threw "Document does not exist!"
  | some data =>
    if data.status = .str "available" then
      let newVersion := (data.version.or (.num 0)).add (.num 1)
      .returned { status := "success", version := newVersion }
        (fun d => { d with status := .str "occupied", winner := .str studentId,
                           version := newVersion, updatedAt := .num now })
    else
      .threw "Slot occupied"

/-- The store's `runTransaction`, atomic: the callback reads the current document,
and its buffered update is committed exactly when it returns normally.  `fault`
is a rejection by the store itself (network, permissions), which commits nothing. -/
def runTransaction {α : Type} (fault : Option String) (body : SlotStore → TxBody α)
    (store : SlotStore) : SlotStore × Except String α :=
  match fault with
  | some e => (store, .error e)
  | none =>
    match body store with
    | .threw e => (store, .error e)
    | .returned v upd => (store.map upd, .ok v)

/-- The object `attemptClaim` resolves to. -/
structure ClaimResult where
  status : String
  id : String
  version : JsVal
  error : JsVal
  deriving DecidableEq, Repr

/-- The function `attemptClaim` (lines 194-219): run the transaction, and turn any
exception into an error result. -/
def attemptClaim (fault : Option String) (studentId : String) (now : Int)
    (store : SlotStore) : SlotStore × ClaimResult :=
  match runTransaction fault (claimBody studentId now) store with
  | (store', .ok result) =>
    (store', { status := "success", id := studentId, version := result.version,
               error := .undefined })
  | (store', .error _) =>
    (store', { status := "error", id := studentId, version := .undefined,
               error := .str "Locked/Occupied" })

/-- The five simulated students of `runSlotClaimSimulation` (line 221). -/
def students : List String :=
  ["Student A", "Student B", "Student C", "Student D", "Student E"]

/-- The transactions of the given students executed one after the other, in list
order, each at its own server time `now + k`; returns the final store and the
results in execution order. -/
def runSerial : List String → Int → SlotStore → SlotStore × List ClaimResult
  | [], _, store => (store, [])
  | s :: rest, now, store =>
    let (store1, r) := attemptClaim none s now store
    let (store2, rs) := runSerial rest (now + 1) store1
    (store2, r :: rs)

/-- The part of `runSlotClaimSimulation` between `resetSlot` and the rendering of
the log (lines 187-223): the slot is reset, the five transactions run in the serial
order `order`, and `Promise.all` hands back the results in the order of `students`. -/
def runSlotClaimSimulation (order : List String) (now : Int) (store : SlotStore) :
    SlotStore × List ClaimResult :=
  let (store', executed) := runSerial order (now + 1) (resetSlot now store)
  (store', students.filterMap (fun s => executed.find? (fun r => r.id == s)))

/-- The log line rendered for one result of `attemptClaim` (lines 225-232): its
type and message. -/
def claimLog (res : ClaimResult) : String × String :=
  if res.status = "success" then
    ("success", "[SUCCESS] " ++ res.id ++ " WON the resource | Ver: " ++ res.version.toStr
                  ++ " | Atomic Commit")
  else
    ("error", "[FAIL] " ++ res.id ++ " Failed: Resource Locked | Transaction Aborted")

/-! ## Consistency lab: `runLogStormSimulation`
(`TeacherDashboard.jsx`, lines 243-289) -/

/-- The answers of the outside world during a log storm: whether the store rejects
the write of a student (`some m`: rejected with `e.message = m`), the order in which
the writes of a chunk settle, and the values drawn from `Math.random`. -/
structure StormEnv where
  failure : String → Option String
  sched : List String → List String
  randomError : String → Bool
  accuracy : String → String
  latency : String → Nat

/-- The document written to `experiment_results` for one simulated student. -/
structure StormRecord where
  studentId : String
  status : String
  output : String
  accuracy : String
  deriving DecidableEq, Repr

/-- What `runLogStormSimulation` does, in order of occurrence. -/
inductive StormEvent where
  | setTesting (b : Bool)
  | log (type msg : String)
  | addDoc (coll : String) (record : StormRecord)
  | settled (studentId : String) (ok : Bool)
  | delay (ms : Nat)
  deriving DecidableEq, Repr

/-- The array built by `Array.from` with length 50 (line 249). -/
def stormStudents : List String :=
  (List.range 50).map (fun i => "Student_" ++ toString (i + 1))

/-- The synchronous start of the callback for one student (lines 256-269): the
pending line is logged and the write is issued. -/
def stormIssue (env : StormEnv) (studentId : String) : List StormEvent :=
  [ .log "info" ("[PENDING] " ++ studentId ++ ": Sending experiment result..."),
    .addDoc "experiment_results"
      { studentId := studentId,
        status := if env.randomError studentId then "Error" else "Success",
        output := "Simulated output from " ++ studentId,
        accuracy := env.accuracy studentId } ]

/-- The log line of a failed storm write (line 276): its type and message. -/
def stormFailLog (studentId message : String) : String × String :=
  ("error", "[ERR] " ++ studentId ++ ": Write Failed (" ++ message ++ ")")

/-- The rest of the callback for one student, run when its write settles
(lines 270-277). -/
def stormSettle (env : StormEnv) (studentId : String) : List StormEvent :=
  match env.failure studentId with
  | none =>
    [ .settled studentId true,
      .log "success" ("[OK] " ++ studentId ++ ": Write Acknowledged (Lat: "
                        ++ toString (env.latency studentId) ++ "ms)") ]
  | some message =>
    [ .settled studentId false,
      .log (stormFailLog studentId message).1 (stormFailLog studentId message).2 ]

/-- One chunk awaited through `Promise.all` (lines 255-278): every callback of the
chunk is started, then the writes settle in the order chosen by the environment. -/
def stormChunkEvents (env : StormEnv) (chunk : List String) : List StormEvent :=
  chunk.flatMap (stormIssue env) ++ (env.sched chunk).flatMap (stormSettle env)

/-- The `for` loop of lines 253-281, started at index `i` with the events `acc`
already produced; `none` when the fuel runs out before the loop exits. -/
def stormLoop (env : StormEnv) (all : List String) (chunkSize : Nat) :
    Nat → Nat → List StormEvent → Option (List StormEvent)
  | 0, _, _ => none
  | fuel + 1, i, acc =>
    if i < all.length then
      let chunk := (all.drop i).take chunkSize
      stormLoop env all chunkSize fuel (i + chunkSize)
        (acc ++ stormChunkEvents env chunk ++ [.delay 50])
    else
      some acc

/-- The handler `runLogStormSimulation`; `isTestingConsistency` is the React state
read on entry. -/
def runLogStormSimulation (env : StormEnv) (isTestingConsistency : Bool) :
    Option (List StormEvent) :=
  if isTestingConsistency then some []
  else
    let start : List StormEvent :=
      [ .setTesting true, .log "warning" "[INFO] Initiating 50-User Concurrent Log Storm..." ]
    match stormLoop env stormStudents 10 (stormStudents.length + 1) 0 start with
    | none => none
    | some evs =>
      some (evs ++ [ .log "success" "[DONE] Log Storm Simulation Completed.",
                     .setTesting false ])

/-- The student ids of the writes issued in a trace, in order. -/
def writesOf (tr : List StormEvent) : List String :=
  tr.filterMap (fun e => match e with
    | .addDoc "experiment_results" r => some r.studentId
    | _ => none)

/-- Chunk number `k` as the specification describes it: the ten ids
`Student_(10k+1)` to `Student_(10k+10)`. -/
def stormChunk (k : Nat) : List String :=
  (List.range 10).map (fun j => "Student_" ++ toString (10 * k + j + 1))

/-! ## Route guards (`App.jsx`) -/

/-- The constant `TEACHER_EMAIL`. -/
def TEACHER_EMAIL : String := "teacher@system.local"

/-- The authenticated user handed out by `useAuth`. -/
structure User where
  uid : String
  email : JsVal
  deriving DecidableEq, Repr

/-- What a guard evaluates to: its children, or a `Navigate` element. -/
inductive Rendered (α : Type) where
  | children (c : α)
  | navigate (path : String)
  deriving DecidableEq, Repr

/-- The guard `PrivateRoute` (lines 13-16). -/
def PrivateRoute {α : Type} (currentUser : Option User) (children : α) : Rendered α :=
  match currentUser with
  | some _ => .children children
  | none => .navigate "/login"

/-- The guard `PublicRoute` (lines 18-27). -/
def PublicRoute {α : Type} (currentUser : Option User) (children : α) : Rendered α :=
  match currentUser with
  | some user =>
    if user.email = .str TEACHER_EMAIL then .navigate "/teacher-dashboard"
    else .navigate "/"
  | none => .children children

/-- The page components mounted by the routes. -/
inductive Page where
  | Login
  | Register
  | TeacherDashboard
  | Workspace
  | ExperimentDetail (id : String)
  | StudentExperimentSnapshot (id : String)
  deriving DecidableEq, Repr

/-- A location, as matched by the router against the route patterns of `AppRoutes`. -/
inductive Location where
  | login
  | register
  | teacherDashboard
  | root
  | experiment (id : String)
  | snapshot (id : String)
  | unmatched
  deriving DecidableEq, Repr

/-- The route table `AppRoutes` (lines 29-62); `none` when no route matches. -/
def AppRoutes (currentUser : Option User) : Location → Option (Rendered Page)
  | .login => some (PublicRoute currentUser .Login)
  | .register => some (PublicRoute currentUser .Register)
  | .teacherDashboard => some (.children .TeacherDashboard)
  | .root => some (PrivateRoute currentUser .Workspace)
  | .experiment id => some (PrivateRoute currentUser (.ExperimentDetail id))
  | .snapshot id => some (PrivateRoute currentUser (.StudentExperimentSnapshot id))
  | .unmatched => none

/-- A user counts as the teacher when signed in under the teacher account, the
test used by `PublicRoute`. -/
def isTeacherUser (user : User) : Bool := user.email == .str TEACHER_EMAIL

/-! ## `Login.handleSubmit` (`Login.jsx`, lines 16-70) -/

/-- An error thrown by the authentication service; `code` is its `code` property. -/
structure AuthError where
  code : JsVal
  deriving DecidableEq, Repr

/-- The authentication service behind `useAuth`: the answers of `login` and
`signup` to given credentials. -/
structure AuthService where
  login : String → String → Except AuthError Unit
  signup : String → String → Except AuthError Unit

/-- What `handleSubmit` does, in order of occurrence. -/
inductive LoginEffect where
  | preventDefault
  | setError (msg : String)
  | setLoading (b : Bool)
  | login (email password : String) (ok : Bool)
  | signup (email password : String) (ok : Bool)
  | navigate (path : String)
  | consoleLog (msg : String)
  | consoleError (msg : String)
  deriving DecidableEq, Repr

/-- The shadow account of the teacher (lines 27-28). -/
def shadowEmail : String := "teacher@system.local"

/-- The password of the shadow account. -/
def shadowPwd : String := "teacher_secure_access_key_2024"

/-- The teacher branch of `handleSubmit` once the hardcoded check has passed
(lines 24-49). -/
def teacherShadowAuth (auth : AuthService) : List LoginEffect :=
  match auth.login shadowEmail shadowPwd with
  | .ok _ => [ .login shadowEmail shadowPwd true, .navigate "/teacher-dashboard" ]
  | .error loginErr =>
    if loginErr.code = .str "auth/user-not-found"
        ∨ loginErr.code = .str "auth/invalid-credential" then
      match auth.signup shadowEmail shadowPwd with
      | .ok _ =>
        [ .login shadowEmail shadowPwd false, .signup shadowEmail shadowPwd true,
          .navigate "/teacher-dashboard" ]
      | .error _ =>
        [ .login shadowEmail shadowPwd false, .signup shadowEmail shadowPwd false,
          .consoleError "Teacher Shadow Auth failed", .setLoading false,
          .setError "教师端系统认证失败，请联系管理员" ]
    else
      [ .login shadowEmail shadowPwd false,
        .consoleError "Teacher Shadow Auth failed", .setLoading false,
        .setError "教师端系统认证失败，请联系管理员" ]

/-- The handler `handleSubmit` of the login form; `role`, `email`, `password` and
`isLogin` are the React state read by the handler. -/
def handleSubmit (auth : AuthService) (role email password : String) (isLogin : Bool) :
    List LoginEffect :=
  [ .preventDefault, .setError "", .setLoading true ] ++
  if role = "teacher" then
    if email = "admin" ∧ password = "admin123456" then
      teacherShadowAuth auth
    else
      [ .consoleLog "Admin auth failed", .setLoading false ]
  else if isLogin then
    match auth.login email password with
    | .ok _ => [ .login email password true, .navigate "/workspace", .setLoading false ]
    | .error _ =>
      [ .login email password false, .consoleError "", .setError "验证失败，请检查账号密码",
        .setLoading false ]
  else
    match auth.signup email password with
    | .ok _ => [ .signup email password true, .navigate "/workspace", .setLoading false ]
    | .error _ =>
      [ .signup email password false, .consoleError "", .setError "验证失败，请检查账号密码",
        .setLoading false ]

/-- A call to the authentication backend. -/
def LoginEffect.isAuthCall : LoginEffect → Bool
  | .login _ _ _ => true
  | .signup _ _ _ => true
  | _ => false

/-- A call to the authentication backend that succeeded. -/
def LoginEffect.isAuthSuccess : LoginEffect → Bool
  | .login _ _ ok => ok
  | .signup _ _ ok => ok
  | _ => false

/-- The credentials an authentication call was made with. -/
def LoginEffect.credentials : LoginEffect → Option (String × String)
  | .login e p _ => some (e, p)
  | .signup e p _ => some (e, p)
  | _ => none

/-- A navigation. -/
def LoginEffect.isNavigate : LoginEffect → Bool
  | .navigate _ => true
  | _ => false

/-! ## `ExperimentDetail` (`ExperimentDetail.jsx`) and the snapshot view -/

/-- A document of the `projects` collection, with the fields the handlers read or
write; the other fields are never touched by them. -/
structure ProjectDoc where
  latest_code : JsVal
  status : JsVal
  selfScore : JsVal
  submittedAt : JsVal
  teacherScore : JsVal
  deriving DecidableEq, Repr

/-- The document `projects/<id>` as held by the store: `none` when it does not exist. -/
abbrev ProjectStore := Option ProjectDoc

/-- The store's `updateDoc` on `projects/<id>`: it rejects when the store is at
fault or the document does not exist, and merges the given fields otherwise. -/
def updateDoc (fault : Option String) (fields : ProjectDoc → ProjectDoc)
    (store : ProjectStore) : Except String ProjectStore :=
  match fault with
  | some e => .error e
  | none =>
    match store with
    | none => .error "not-found"
    | some d => .ok (some (fields d))

/-- The React state of `ExperimentDetail` read or written by the handlers below. -/
structure DetailState where
  project : Option ProjectDoc
  code : String
  selfScore : String
  showSubmitModal : Bool
  isRunning : Bool
  activeTab : String
  selectedDataset : String
  deriving DecidableEq, Repr

/-- The derived flag `isSubmitted` (line 241). -/
def isSubmitted (st : DetailState) : Bool :=
  match st.project with
  | none => false
  | some p => p.status == .str "submitted" || p.status == .str "graded"

/-- The editor's `onValueChange` (line 273). -/
def onValueChange (st : DetailState) (text : String) : DetailState :=
  if !isSubmitted st then { st with code := text } else st

/-- The JSON body of the request to `/run`. -/
structure RunBody where
  project_id : String
  code : String
  deriving DecidableEq, Repr

/-- How `fetch` answers: it throws, or resolves to a response with the flag `ok`. -/
inductive FetchAnswer where
  | threw (msg : String)
  | response (ok : Bool)
  deriving DecidableEq, Repr

/-- The result record fabricated by the fallback of `handleRun` (lines 219-225). -/
structure ResultRecord where
  experimentId : String
  output : String
  accuracy : String
  region : String
  deriving DecidableEq, Repr

/-- What `handleRun` does, in order of occurrence.  `setTimeout ms coll r` registers a
timer of `ms` milliseconds whose callback adds `r` to the collection `coll`. -/
inductive RunEffect where
  | setIsRunning (b : Bool)
  | updateDoc (coll id : String) (latest_code : String) (ok : Bool)
  | fetch (url method : String) (body : RunBody)
  | consoleError (msg : String)
  | setTimeout (ms : Nat) (coll : String) (record : ResultRecord)
  deriving DecidableEq, Repr

/-- The answers of the outside world to `handleRun`: a fault of the store, the answer
of the script-execution service, and the value drawn from `Math.random`. -/
structure RunEnv where
  updateFault : Option String
  fetch : RunBody → FetchAnswer
  accuracy : String

/-- The outcome of `handleRun`: the new React state, the store, the effects, and
whether the handler's promise was rejected. -/
structure RunOutcome where
  state : DetailState
  store : ProjectStore
  effects : List RunEffect
  rejected : Bool

/-- The fallback of `handleRun` (lines 216-226). -/
def runFallback (id : String) (st : DetailState) (env : RunEnv) : List RunEffect :=
  [ .consoleError "后端连接失败",
    .setTimeout 2000 "experiment_results"
      { experimentId := id,
        output := "模拟执行结果: 已处理 "
          ++ (if st.activeTab = "upload" then "自定义 CSV" else st.selectedDataset)
          ++ " 数据集。",
        accuracy := env.accuracy,
        region := "asia-east1" } ]

/-- The handler `handleRun` (lines 191-228); `id` is the route's project id. -/
def handleRun (env : RunEnv) (id : String) (st : DetailState) (store : ProjectStore) :
    RunOutcome :=
  let st1 := { st with isRunning := true }
  match updateDoc env.updateFault (fun d => { d with latest_code := .str st.code }) store with
  | .error _ =>
    { state := st1, store := store, rejected := true,
      effects := [ .setIsRunning true, .updateDoc "projects" id st.code false ] }
  | .ok store1 =>
    let body : RunBody := { project_id := id, code := st.code }
    let sent : List RunEffect :=
      [ .setIsRunning true, .updateDoc "projects" id st.code true,
        .fetch "http://localhost:8000/run" "POST" body ]
    match env.fetch body with
    | .response true =>
      { state := st1, store := store1, rejected := false, effects := sent }
    | .response false =>
      { state := st1, store := store1, rejected := false,
        effects := sent ++ runFallback id st env }
    | .threw _ =>
      { state := st1, store := store1, rejected := false,
        effects := sent ++ runFallback id st env }

/-- The result records `handleRun` adds or schedules: the timers it registers. -/
def scheduledRecords (effects : List RunEffect) : List (Nat × String × ResultRecord) :=
  effects.filterMap (fun e => match e with
    | .setTimeout ms coll r => some (ms, coll, r)
    | _ => none)

/-- A request sent by `fetch`. -/
def RunEffect.isFetch : RunEffect → Bool
  | .fetch _ _ _ => true
  | _ => false

/-- The outcome of `handleSubmitProject`. -/
structure SubmitOutcome where
  state : DetailState
  store : ProjectStore
  alerts : List String
  succeeded : Bool

/-- The handler `handleSubmitProject` (lines 42-65).  `number` is JavaScript's
`Number` on the text of the self-score field, `serverNow` the server time and
`localNow` the browser's clock in seconds. -/
def handleSubmitProject (number : String → JsVal) (fault : Option String)
    (serverNow localNow : Int) (id : String) (st : DetailState) (store : ProjectStore) :
    SubmitOutcome :=
  match st.project with
  | none => { state := st, store := store, alerts := [], succeeded := false }
  | some _ =>
    if id = "" then { state := st, store := store, alerts := [], succeeded := false }
    else
      match updateDoc fault (fun d => { d with status := .str "submitted",
                                               selfScore := number st.selfScore,
                                               submittedAt := .num serverNow }) store with
      | .ok store1 =>
        { state := { st with
            showSubmitModal := false,
            project := st.project.map (fun prev =>
              { prev with status := .str "submitted", selfScore := number st.selfScore,
                          submittedAt := .num localNow }) },
          store := store1, alerts := [], succeeded := true }
      | .error _ =>
        { state := st, store := store, alerts := ["提交失败，请重试"], succeeded := false }

/-- The code the snapshot view displays once `fetchProject` has loaded the project
(`StudentExperimentSnapshot.jsx`, line 27). -/
def snapshotCode (data : ProjectDoc) : JsVal :=
  data.latest_code.or (.str "# No code found")

/-- The error result `attemptClaim` resolves to for a student. -/
def claimError (studentId : String) : ClaimResult :=
  { status := "error", id := studentId, version := .undefined, error := .str "Locked/Occupied" }

/-- A behaviour of the store used to exercise the log storm: the writes of a chunk
settle in reverse order, and the write of `Student_7` is rejected. -/
def stormSampleEnv : StormEnv where
  failure := fun s => if s = "Student_7" then some "unavailable" else none
  sched := List.reverse
  randomError := fun _ => false
  accuracy := fun _ => "0.90"
  latency := fun _ => 10

/-- A project in progress, used to exercise the handlers: the code of the last run is
`print(1)`. -/
def sampleProject : ProjectDoc :=
  { latest_code := .str "print(1)", status := .str "In Progress", selfScore := .undefined,
    submittedAt := .undefined, teacherScore := .undefined }

/-- The state of `ExperimentDetail` right after `sampleProject` has been loaded. -/
def sampleDetailState : DetailState :=
  { project := some sampleProject, code := "print(1)", selfScore := "90",
    showSubmitModal := true, isRunning := false, activeTab := "builtin",
    selectedDataset := "Iris" }

/-! ## JavaScript strings and `Number` -/

/-- JavaScript white space and line terminators, the characters `trim` removes. -/
def jsIsWhiteSpace (c : Char) : Bool :=
  c.toNat ∈ [0x09, 0x0A, 0x0B, 0x0C, 0x0D, 0x20, 0xA0, 0x1680, 0x2028, 0x2029, 0x202F,
             0x205F, 0x3000, 0xFEFF]
    || (0x2000 ≤ c.toNat && c.toNat ≤ 0x200A)

/-- JavaScript `String.prototype.trim`. -/
def jsTrim (s : String) : String :=
  ⟨((s.data.dropWhile jsIsWhiteSpace).reverse.dropWhile jsIsWhiteSpace).reverse⟩

/-- The value of a non-empty run of decimal digits, read after the digits `acc`. -/
def digitsValue : List Char → Nat → Option Nat
  | [], acc => some acc
  | c :: cs, acc =>
    if c.isDigit then digitsValue cs (acc * 10 + (c.toNat - '0'.toNat)) else none

/-- JavaScript `Number` on a string, for the numbers `JsVal` represents: the empty or
blank string is 0, an optionally signed run of decimal digits is that integer, and
every other text stands for `NaN`. -/
def jsNumber (s : String) : JsVal :=
  match (jsTrim s).data with
  | [] => .num 0
  | '-' :: d :: ds =>
    match digitsValue (d :: ds) 0 with
    | some n => .num (-(n : Int))
    | none => .nan
  | '+' :: d :: ds =>
    match digitsValue (d :: ds) 0 with
    | some n => .num n
    | none => .nan
  | ds =>
    match digitsValue ds 0 with
    | some n => .num n
    | none => .nan

/-! ## The snapshot view (`StudentExperimentSnapshot.jsx`) -/

/-- The React state of `StudentExperimentSnapshot`. -/
structure SnapshotState where
  project : Option ProjectDoc
  code : JsVal
  teacherScore : JsVal
  deriving DecidableEq, Repr

/-- The state the component is mounted with (lines 13-16). -/
def SnapshotState.initial : SnapshotState :=
  { project := none, code := .str "", teacherScore := .str "" }

/-- What the handlers of the snapshot view do, in order of occurrence. -/
inductive SnapshotEffect where
  | alert (msg : String)
  | navigate (path : String)
  | consoleError
  | updateDoc (coll id : String) (ok : Bool)
  | deleteDoc (coll id : String) (ok : Bool)
  deriving DecidableEq, Repr

/-- The effect `fetchProject` of the snapshot view (lines 20-37); `answer` is what
`getDoc` resolved to, or the error it rejected with. -/
def Snapshot.fetchProject (answer : Except String ProjectStore) (st : SnapshotState) :
    SnapshotState × List SnapshotEffect :=
  match answer with
  | .ok (some data) =>
    ({ project := some data, code := snapshotCode data,
       teacherScore := data.teacherScore.or (.str "") }, [])
  | .ok none => (st, [ .alert "Project not found", .navigate "/teacher-dashboard" ])
  | .error _ => (st, [ .consoleError, .navigate "/teacher-dashboard" ])

/-- The editor's `onValueChange` in the snapshot view (line 109): the empty function. -/
def Snapshot.onValueChange (st : SnapshotState) (_text : String) :
    SnapshotState × List SnapshotEffect :=
  (st, [])

/-- The code in the snapshot's editor; nothing while the view still shows
`Loading snapshot...` (line 73). -/
def Snapshot.displayedCode (st : SnapshotState) : Option JsVal :=
  match st.project with
  | none => none
  | some _ => some st.code

/-- A run of editor change events on the snapshot view, with the effects they cause. -/
def Snapshot.editorEvents (st : SnapshotState) (texts : List String) :
    SnapshotState × List SnapshotEffect :=
  texts.foldl (fun w t => ((Snapshot.onValueChange w.1 t).1,
                           w.2 ++ (Snapshot.onValueChange w.1 t).2)) (st, [])

/-- The handler `handleDelete` of the snapshot view (lines 66-71); `confirmed` is the
answer of `window.confirm` and `fault` a rejection of `deleteDoc`.  Returns the
effects and whether the handler's promise was rejected. -/
def Snapshot.handleDelete (confirmed : Bool) (fault : Option String) (id : String) :
    List SnapshotEffect × Bool :=
  if confirmed then
    match fault with
    | none => ([ .deleteDoc "projects" id true, .navigate "/teacher-dashboard" ], false)
    | some _ => ([ .deleteDoc "projects" id false ], true)
  else ([], false)

/-- The handler `handleDelete` of `AssignmentList` (`TeacherDashboard.jsx`, lines
32-36), with the same conventions. -/
def AssignmentList.handleDelete (confirmed : Bool) (fault : Option String) (id : String) :
    List SnapshotEffect × Bool :=
  if confirmed then
    match fault with
    | none => ([ .deleteDoc "assignments" id true ], false)
    | some _ => ([ .deleteDoc "assignments" id false ], true)
  else ([], false)

/-! ## `ExperimentDetail`: the editor, the run button and the submit modal -/

/-- The `disabled` flag of the run button (line 292). -/
def runDisabled (st : DetailState) : Bool := st.isRunning || isSubmitted st

/-- The `disabled` flag of the confirm button of the submit modal (line 563). -/
def submitDisabled (st : DetailState) : Bool := st.selfScore = ""

/-- The events a user can raise on the editor and the run button. -/
inductive DetailEvent where
  | editorChange (text : String)
  | runClick (env : RunEnv)

/-- The component together with the store and the effects raised so far. -/
structure DetailWorld where
  state : DetailState
  store : ProjectStore
  effects : List RunEffect

/-- The reaction of `ExperimentDetail` to one event: an editor change goes to
`onValueChange`, a click on the run button to `handleRun` unless the button is
disabled. -/
def dispatch (id : String) (w : DetailWorld) : DetailEvent → DetailWorld
  | .editorChange text => { w with state := onValueChange w.state text }
  | .runClick env =>
    if runDisabled w.state then w
    else
      { state := (handleRun env id w.state w.store).state,
        store := (handleRun env id w.state w.store).store,
        effects := w.effects ++ (handleRun env id w.state w.store).effects }

/-! ## `ExperimentDetail.handleFileUpload` (lines 167-189) -/

/-- One parsed row of a CSV file: the cells keyed by the header. -/
abbrev CsvRow := List (String × String)

/-- A file picked in the upload field. -/
structure UploadedFile where
  name : String
  content : String
  deriving DecidableEq, Repr

/-- What `handleFileUpload` does, in order of occurrence. -/
inductive UploadEffect where
  | setCsvData (rows : List CsvRow)
  | addDoc (coll : String) (fileName : String) (preview : List CsvRow) (ok : Bool)
  | consoleError (msg : String)
  | fetch (url : String)
  deriving DecidableEq, Repr

/-- The handler `handleFileUpload`.  `parse` is the CSV parser of the `Papa` library
with `header: true`; its option `preview: 10` keeps the first ten rows.  `file` is
`e.target.files[0]`, and `fault` a rejection of the store's `addDoc`. -/
def handleFileUpload (parse : String → List CsvRow) (fault : Option String) (id : String)
    (file : Option UploadedFile) : List UploadEffect :=
  match file with
  | none => []
  | some f =>
    let data := (parse f.content).take 10
    match fault with
    | none =>
      [ .setCsvData data, .addDoc ("projects/" ++ id ++ "/data_records") f.name data true ]
    | some _ =>
      [ .setCsvData data, .addDoc ("projects/" ++ id ++ "/data_records") f.name data false,
        .consoleError "保存预览失败" ]

/-- A write to the document store. -/
def UploadEffect.isStoreWrite : UploadEffect → Bool
  | .addDoc _ _ _ _ => true
  | _ => false

/-- A request to an external service. -/
def UploadEffect.isRequest : UploadEffect → Bool
  | .fetch _ => true
  | _ => false

/-! ## `Register.handleSubmit` (`Register.jsx`, lines 15-32) -/

/-- What the handler of the registration form does, in order of occurrence. -/
inductive RegisterEffect where
  | preventDefault
  | setError (msg : String)
  | setLoading (b : Bool)
  | signup (email password : String) (ok : Bool)
  | navigate (path : String)
  | consoleError
  deriving DecidableEq, Repr

/-- The handler `handleSubmit` of the registration form; `signup` is the answer of the
authentication service, an error carrying its `message`. -/
def Register.handleSubmit (signup : String → String → Except String Unit)
    (email password confirmPassword : String) : List RegisterEffect :=
  if password ≠ confirmPassword then
    [ .preventDefault, .setError "两次输入的密码不一致" ]
  else
    match signup email password with
    | .ok _ =>
      [ .preventDefault, .setError "", .setLoading true, .signup email password true,
        .navigate "/", .setLoading false ]
    | .error message =>
      [ .preventDefault, .setError "", .setLoading true, .signup email password false,
        .consoleError, .setError ("注册失败: " ++ message), .setLoading false ]

/-- A call to `signup`. -/
def RegisterEffect.isSignup : RegisterEffect → Bool
  | .signup _ _ _ => true
  | _ => false

/-- A navigation. -/
def RegisterEffect.isNavigate : RegisterEffect → Bool
  | .navigate _ => true
  | _ => false

/-! ## Forms of the teacher dashboard and the workspace -/

/-- A schema-less document: its fields in order. -/
abbrev Fields := List (String × JsVal)

/-- What the form handlers of `TeacherDashboard` and `Workspace` do, in order of
occurrence. -/
inductive UiEffect where
  | preventDefault
  | setState (name : String) (value : JsVal)
  | upload (url method : String) (fileName : String)
  | addDoc (coll : String) (fields : Fields) (ok : Bool)
  | alert (msg : String)
  | consoleError (msg : String)
  deriving DecidableEq, Repr

/-- An `addDoc` on the given collection. -/
def UiEffect.isAddDocTo (coll : String) : UiEffect → Bool
  | .addDoc c _ _ => c == coll
  | _ => false

/-- An upload request. -/
def UiEffect.isUpload : UiEffect → Bool
  | .upload _ _ _ => true
  | _ => false

/-- The documents the effects tried to add to a collection, in order. -/
def addDocAttempts (coll : String) (effects : List UiEffect) : List Fields :=
  effects.filterMap (fun e => match e with
    | .addDoc c fields _ => if c = coll then some fields else none
    | _ => none)

/-- The state of the assignment form of `TeacherDashboard` (lines 104-110). -/
structure PublishForm where
  title : String
  description : String
  datasetMode : String
  dataset : String
  customFile : Option UploadedFile
  deriving DecidableEq, Repr

/-- How the upload endpoint answers: `fetch` throws, or resolves to a response with
the flag `ok` whose JSON carries `filename`. -/
inductive UploadAnswer where
  | threw (msg : String)
  | response (ok : Bool) (filename : String)
  deriving DecidableEq, Repr

/-- The part of `handlePublish` after the dataset is settled (lines 307-320). -/
def publishWrite (fault : Option String) (now : Int) (form : PublishForm)
    (finalDataset : String) : List UiEffect :=
  let fields : Fields :=
    [ ("title", .str form.title), ("description", .str form.description),
      ("dataset", .str finalDataset), ("createdAt", .num now), ("status", .str "active") ]
  match fault with
  | none =>
    [ .addDoc "assignments" fields true,
      .setState "title" (.str ""), .setState "description" (.str ""),
      .setState "dataset" (.str "Iris"), .setState "datasetMode" (.str "builtin"),
      .setState "customFile" .null, .setState "isPublishing" (.bool false),
      .setState "isTaskModalOpen" (.bool false), .alert "发布成功" ]
  | some message =>
    [ .addDoc "assignments" fields false, .setState "isPublishing" (.bool false),
      .alert ("Error: " ++ message) ]

/-- The handler `handlePublish` (`TeacherDashboard.jsx`, lines 291-321). -/
def handlePublish (uploadAnswer : UploadAnswer) (fault : Option String) (now : Int)
    (form : PublishForm) : List UiEffect :=
  if jsTrim form.title = "" then [ .preventDefault ]
  else
    [ .preventDefault, .setState "isPublishing" (.bool true) ] ++
    match (if form.datasetMode = "custom" then form.customFile else none) with
    | some file =>
      [ UiEffect.upload "http://127.0.0.1:8000/upload_dataset" "POST" file.name ] ++
      match uploadAnswer with
      | .threw message =>
        [ .setState "isPublishing" (.bool false), .alert ("Error: " ++ message) ]
      | .response false _ =>
        [ .setState "isPublishing" (.bool false), .alert "Error: Upload failed" ]
      | .response true filename => publishWrite fault now form ("custom:" ++ filename)
    | none => publishWrite fault now form form.dataset

/-- The handler `handleCreateProject` (`Workspace.jsx`, lines 188-207). -/
def Workspace.handleCreateProject (fault : Option String) (now : Int) (currentUser : User)
    (newTitle newDesc : String) : List UiEffect :=
  if jsTrim newTitle = "" then [ .preventDefault ]
  else
    let fields : Fields :=
      [ ("title", .str newTitle), ("description", .str newDesc),
        ("status", .str "In Progress"), ("ownerId", .str currentUser.uid),
        ("createdAt", .num now) ]
    match fault with
    | none =>
      [ .preventDefault, .addDoc "projects" fields true, .setState "newTitle" (.str ""),
        .setState "newDesc" (.str ""), .setState "isModalOpen" (.bool false) ]
    | some message =>
      [ .preventDefault, .addDoc "projects" fields false,
        .consoleError "Error creating project:", .alert ("创建失败: " ++ message) ]

/-- An assignment as listed in the workspace: the document id and the fields copied
by `handleStartAssignment`. -/
structure Assignment where
  id : String
  title : JsVal
  description : JsVal
  dataset : JsVal
  deriving DecidableEq, Repr

/-- The handler `handleStartAssignment` (`Workspace.jsx`, lines 154-171); `confirmed`
is the answer of `confirm`. -/
def Workspace.handleStartAssignment (confirmed : Bool) (fault : Option String) (now : Int)
    (currentUser : User) (assignment : Assignment) : List UiEffect :=
  if !confirmed then []
  else
    let fields : Fields :=
      [ ("title", assignment.title), ("description", assignment.description),
        ("dataset", assignment.dataset), ("status", .str "In Progress"),
        ("ownerId", .str currentUser.uid), ("createdAt", .num now),
        ("assignmentId", .str assignment.id) ]
    match fault with
    | none => [ .addDoc "projects" fields true ]
    | some message =>
      [ .addDoc "projects" fields false, .consoleError "Error starting assignment:",
        .alert ("创建失败: " ++ message) ]

/-- The projects collection after the effects: every accepted `addDoc` appends its
document. -/
def projectsAfter (projects : List Fields) (effects : List UiEffect) : List Fields :=
  projects ++ effects.filterMap (fun e => match e with
    | .addDoc "projects" fields true => some fields
    | _ => none)

/-- The value of a field of a document, `undefined` when the field is missing. -/
def Fields.get (fields : Fields) (name : String) : JsVal :=
  match fields.find? (fun f => f.1 == name) with
  | some f => f.2
  | none => .undefined

/-! ## Presence on the teacher monitor (`TeacherDashboard.jsx`, line 621) -/

/-- A document of the `users` collection as the monitor reads it; `lastActive` is the
`seconds` of the timestamp, `none` when the field is missing or null. -/
structure UserDoc where
  uid : String
  email : JsVal
  displayName : JsVal
  role : JsVal
  isOnline : JsVal
  lastActive : Option Int
  deriving DecidableEq, Repr

/-- The flag `isActive`; `now` is `Date.now()`, in milliseconds. -/
def isActive (now : Int) (student : UserDoc) : Bool :=
  student.isOnline.truthy &&
    match student.lastActive with
    | none => false
    | some seconds => decide (now - seconds * 1000 < 120000)

/-- The label shown next to the student (line 634). -/
def presenceLabel (now : Int) (student : UserDoc) : String :=
  if isActive now student then "Online" else "Offline"

/-! ## `ExperimentDetail.fetchProject` (lines 68-132) -/

/-- JavaScript `split` on a one-character separator, over the characters of a string. -/
def splitChars (sep : Char) : List Char → List (List Char)
  | [] => [[]]
  | c :: cs =>
    if c = sep then [] :: splitChars sep cs
    else
      match splitChars sep cs with
      | [] => [[c]]
      | part :: parts => (c :: part) :: parts

/-- The expression `data.dataset.split(':')[1]`. -/
def datasetFilename (dataset : String) : JsVal :=
  match splitChars ':' dataset.data with
  | _ :: name :: _ => .str ⟨name⟩
  | _ => .undefined

/-- The test `data.dataset && data.dataset.startsWith('custom:')`; the dataset field
is a string or missing (`undefined`). -/
def isCustomDataset (dataset : JsVal) : Bool :=
  match dataset with
  | .str d => d != "" && d.data.take 7 == "custom:".data
  | _ => false

/-- The project document as `fetchProject` reads it: the fields of `ProjectDoc`
together with the `dataset` field. -/
structure ProjectData where
  doc : ProjectDoc
  dataset : JsVal
  deriving DecidableEq, Repr

/-- What `fetchProject` of `ExperimentDetail` does, in order of occurrence. -/
inductive DetailEffect where
  | setProject (data : ProjectData)
  | setCode (code : JsVal)
  | setActiveTab (tab : String)
  | setSelectedDataset (name : JsVal)
  | setAgentMessage (msg : String)
  | loadDatasetPreview (filename : JsVal)
  | consoleError (msg : String)
  | alert (msg : String)
  | navigate (path : String)
  deriving DecidableEq, Repr

/-- The names bound in the scope of the component function `ExperimentDetail`: the
imports (lines 1-11) and the declarations of the function body (lines 14-241). -/
def detailScope : List String :=
  [ "React", "useState", "useEffect", "useParams", "useNavigate", "doc", "getDoc",
    "collection", "query", "where", "onSnapshot", "addDoc", "serverTimestamp", "updateDoc",
    "db", "useAuth", "motion", "AnimatePresence", "Editor", "highlight", "languages", "Papa",
    "id", "navigate", "currentUser", "userRole", "setUserRole", "isTeacher",
    "project", "setProject", "activeTab", "setActiveTab", "code", "setCode",
    "csvData", "setCsvData", "isRunning", "setIsRunning", "logs", "setLogs",
    "selectedDataset", "setSelectedDataset", "showSubmitModal", "setShowSubmitModal",
    "selfScore", "setSelfScore", "handleSubmitProject", "loadDatasetPreview",
    "handleFileUpload", "handleRun", "defaultDatasets", "customDatasetName",
    "availableDatasets", "isSubmitted" ]

/-- A call of the function named `name`: it has the given effect when the name is
bound, and throws a `ReferenceError` otherwise. -/
def callInScope (name : String) (effect : DetailEffect) : Except String (List DetailEffect) :=
  if name ∈ detailScope then .ok [effect] else .error (name ++ " is not defined")

/-- The starter code for a project on a custom dataset (lines 83-92). -/
def customStarterCode (filename : JsVal) : String :=
  "# 加载自定义数据集\nimport pandas as pd\n\n# dataset stored in 'datasets/' directory\ndf = pd.read_csv(f'datasets/"
    ++ filename.toStr
    ++ "')\nprint(df.head())\n\ndef process(data):\n    return data.describe()\n"

/-- The starter code for a project on a built-in dataset (lines 95-104). -/
def builtinStarterCode : String :=
  "# 加载内置数据集\nimport pandas as pd\nimport numpy as np\nfrom sklearn import datasets\n\n# Example: Load Iris\niris = datasets.load_iris()\ndf = pd.DataFrame(iris.data, columns=iris.feature_names)\nprint(df.head())\n"

/-- The code `fetchProject` puts in the editor (lines 77-106). -/
def initialCode (data : ProjectData) : JsVal :=
  if data.doc.latest_code.truthy then data.doc.latest_code
  else if isCustomDataset data.dataset then
    .str (customStarterCode (datasetFilename data.dataset.toStr))
  else .str builtinStarterCode

/-- The `try` block of `fetchProject` for an existing document (lines 75-117): the
effects raised, and the error thrown if the block does not run to its end. -/
def fetchProjectLoaded (data : ProjectData) : List DetailEffect × Option String :=
  let first : List DetailEffect := [ .setProject data, .setCode (initialCode data) ]
  if isCustomDataset data.dataset then
    let filename := datasetFilename data.dataset.toStr
    let selected : List DetailEffect :=
      first ++ [ .setActiveTab "builtin", .setSelectedDataset filename ]
    match callInScope "setAgentMessage"
        (.setAgentMessage ("已自动加载任务数据集: " ++ filename.toStr)) with
    | .error e => (selected, some e)
    | .ok said =>
      match callInScope "loadDatasetPreview" (.loadDatasetPreview filename) with
      | .error e => (selected ++ said, some e)
      | .ok loaded => (selected ++ said ++ loaded, none)
  else if data.dataset.truthy then
    (first ++ [ .setSelectedDataset data.dataset ], none)
  else (first, none)

/-- The `catch` block of `fetchProject` (lines 124-129). -/
def fetchProjectCatch (isTeacher : Bool) (message : String) : List DetailEffect :=
  [ .consoleError "Error fetching project:", .alert ("加载实验失败: " ++ message),
    .alert ("加载实验失败: " ++ message),
    .navigate (if isTeacher then "/teacher-dashboard" else "/") ]

/-- The effect `fetchProject` of `ExperimentDetail`; `answer` is what `getDoc`
resolved to (`none` when the document does not exist) or the error it rejected with. -/
def fetchProject (answer : Except String (Option ProjectData)) (isTeacher : Bool) :
    List DetailEffect :=
  match answer with
  | .error message => fetchProjectCatch isTeacher message
  | .ok none =>
    [ .consoleError "Project not found:", .alert "未找到该实验项目，即将返回主页。",
      .alert "未找到该实验项目，即将返回主页。",
      .navigate (if isTeacher then "/teacher-dashboard" else "/") ]
  | .ok (some data) =>
    match fetchProjectLoaded data with
    | (effects, none) => effects
    | (effects, some message) => effects ++ fetchProjectCatch isTeacher message

/-- A request for a dataset preview. -/
def DetailEffect.isPreviewRequest : DetailEffect → Bool
  | .loadDatasetPreview _ => true
  | _ => false

/-- A navigation away from the page. -/
def DetailEffect.isNavigate : DetailEffect → Bool
  | .navigate _ => true
  | _ => false

/-- A project on the custom dataset `data.csv` with no saved code. -/
def sampleCustomProject : ProjectData :=
  { doc := { sampleProject with latest_code := .undefined },
    dataset := .str "custom:data.csv" }

/-! ## Client-side sorting -/

/-- One step of the sort: `x` is put before the first element it does not compare
greater than. -/
def sortInsert {α : Type} (cmp : α → α → Int) (x : α) : List α → List α
  | [] => [x]
  | y :: ys => if cmp x y ≤ 0 then x :: y :: ys else y :: sortInsert cmp x ys

/-- JavaScript `Array.prototype.sort` with a comparator, which is a stable sort; `cmp`
is the comparator with a `NaN` result already read as 0, as the sort does. -/
def jsSort {α : Type} (cmp : α → α → Int) : List α → List α
  | [] => []
  | x :: xs => sortInsert cmp x (jsSort cmp xs)

/-- The expression `t?.seconds || 0` on a timestamp field that may be missing. -/
def secondsOrZero : Option Int → Int
  | none => 0
  | some s => s

/-- A project as listed in the workspace. -/
structure ProjectRow where
  id : String
  title : JsVal
  createdAt : Option Int
  deriving DecidableEq, Repr

/-- A run log (a document of `experiment_results`). -/
structure RunLog where
  output : JsVal
  timestamp : Option Int
  deriving DecidableEq, Repr

/-- The client-side sort of the projects listener (`Workspace.jsx`, line 125). -/
def Workspace.sortProjects (projectsData : List ProjectRow) : List ProjectRow :=
  jsSort (fun a b => secondsOrZero b.createdAt - secondsOrZero a.createdAt) projectsData

/-- The sort of the results listener (`ExperimentDetail.jsx`, line 142). -/
def sortRunLogs (newLogs : List RunLog) : List RunLog :=
  jsSort (fun a b => secondsOrZero b.timestamp - secondsOrZero a.timestamp) newLogs

/-- The sort of the logs listener (`StudentExperimentSnapshot.jsx`, line 45). -/
def Snapshot.sortRunLogs (newLogs : List RunLog) : List RunLog :=
  jsSort (fun a b => secondsOrZero b.timestamp - secondsOrZero a.timestamp) newLogs

/-! ## The assignment search (`TeacherDashboard.jsx`, lines 38-49) -/

/-- Whether the characters `s` begin with the characters `t`. -/
def beginsWith : List Char → List Char → Bool
  | _, [] => true
  | [], _ :: _ => false
  | c :: cs, d :: ds => c == d && beginsWith cs ds

/-- Whether the characters `t` occur in `s` as a contiguous run. -/
def includesChars : List Char → List Char → Bool
  | [], t => beginsWith [] t
  | c :: cs, t => beginsWith (c :: cs) t || includesChars cs t

/-- JavaScript `s.includes(t)`. -/
def jsIncludes (s t : String) : Bool := includesChars s.data t.data

/-- An assignment as `AssignmentList` reads it; `description` is `none` when the field
is missing. -/
structure AssignmentItem where
  id : String
  title : String
  description : Option String
  deriving DecidableEq, Repr

/-- The predicate of the `filter` call (lines 38-41); `toLowerCase` is JavaScript's
`String.prototype.toLowerCase`. -/
def assignmentMatches (toLowerCase : String → String) (searchTerm : String)
    (a : AssignmentItem) : Bool :=
  jsIncludes (toLowerCase a.title) (toLowerCase searchTerm) ||
    match a.description with
    | none => false
    | some d => d != "" && jsIncludes (toLowerCase d) (toLowerCase searchTerm)

/-- The list `filtered` shown by `AssignmentList`. -/
def AssignmentList.filtered (toLowerCase : String → String) (searchTerm : String)
    (assignments : List AssignmentItem) : List AssignmentItem :=
  assignments.filter (assignmentMatches toLowerCase searchTerm)

/-! ## Custom dataset references -/

/-- The constant `customDatasetName` of `ExperimentDetail` (lines 232-234). -/
def customDatasetName (dataset : JsVal) : JsVal :=
  if isCustomDataset dataset then datasetFilename dataset.toStr else .null

/-- The dataset reference `handlePublish` stores for an uploaded file (line 304). -/
def customDatasetRef (filename : String) : String := "custom:" ++ filename

/-! ## The teacher monitor and the status report -/

/-- JavaScript `a === b` on primitives. -/
def JsVal.strictEq (a b : JsVal) : Bool :=
  match a, b with
  | .nan, _ => false
  | _, .nan => false
  | a, b => a == b

/-- A project as the teacher dashboard reads it. -/
structure MonitorProject where
  id : String
  title : JsVal
  owner : JsVal
  ownerId : JsVal
  status : JsVal
  selfScore : JsVal
  teacherScore : JsVal
  updatedAt : Option Int
  deriving DecidableEq, Repr

/-- The comparator of the report export (line 580): the difference of the two
`updatedAt?.seconds`, which is `NaN`, read as 0 by the sort, when one is missing. -/
def reportCompare (a b : MonitorProject) : Int :=
  match b.updatedAt, a.updatedAt with
  | some x, some y => x - y
  | _, _ => 0

/-- The active project chosen by the report export for a student (lines 579-580). -/
def reportActiveProject (projects : List MonitorProject) (student : UserDoc) :
    Option MonitorProject :=
  (jsSort reportCompare
    (projects.filter (fun p =>
      p.ownerId.strictEq (.str student.uid) || p.ownerId.strictEq student.email))).head?

/-- The active project chosen by the monitor card for a student (lines 618-619). -/
def monitorActiveProject (projects : List MonitorProject) (student : UserDoc) :
    Option MonitorProject :=
  let userProjects := projects.filter (fun p =>
    p.owner.strictEq student.email || p.ownerId.strictEq (.str student.uid))
  if userProjects.length > 0 then
    (jsSort (fun a b => secondsOrZero b.updatedAt - secondsOrZero a.updatedAt)
      userProjects).head?
  else none

/-! ## Grading and the display of scores -/

/-- JavaScript `Number` on a primitive. -/
def JsVal.toNumber (number : String → JsVal) : JsVal → JsVal
  | .undefined => .nan
  | .null => .num 0
  | .bool true => .num 1
  | .bool false => .num 0
  | .num n => .num n
  | .nan => .nan
  | .str s => number s

/-- The outcome of a grading handler: the store, the alerts, and for the snapshot
view its new state. -/
structure GradeOutcome where
  state : SnapshotState
  store : ProjectStore
  alerts : List String

/-- The handler `handleGrade` of the snapshot view (lines 51-64). -/
def Snapshot.handleGrade (number : String → JsVal) (fault : Option String)
    (st : SnapshotState) (store : ProjectStore) : GradeOutcome :=
  match st.project with
  | none => { state := st, store := store, alerts := [] }
  | some _ =>
    match updateDoc fault (fun d => { d with teacherScore := st.teacherScore.toNumber number,
                                             status := .str "graded" }) store with
    | .ok store1 =>
      { state := { st with project := st.project.map (fun prev =>
          { prev with teacherScore := st.teacherScore.toNumber number,
                      status := .str "graded" }) },
        store := store1, alerts := ["评分保存成功"] }
    | .error _ => { state := st, store := store, alerts := ["评分失败"] }

/-- The `onBlur` handler of the teacher-score input of `ExperimentDetail` (lines
348-360); `val` is the content of the input. -/
def teacherScoreOnBlur (number : String → JsVal) (fault : Option String) (val : String)
    (store : ProjectStore) : ProjectStore × List String :=
  if val ≠ "" then
    match updateDoc fault (fun d => { d with teacherScore := number val,
                                             status := .str "graded" }) store with
    | .ok store1 => (store1, [])
    | .error _ => (store, ["评分保存失败"])
  else (store, [])

/-- The self score shown by the snapshot view (line 132). -/
def Snapshot.selfScoreText (project : ProjectDoc) : JsVal :=
  project.selfScore.or (.str "N/A")

/-- The content of the teacher-score input of the snapshot view after loading (line
28); when it is empty the input shows its placeholder `-`. -/
def Snapshot.teacherScoreText (data : ProjectDoc) : JsVal :=
  match data.teacherScore.or (.str "") with
  | .str "" => .str "-"
  | v => v

/-- The self score in the student portfolio list (line 729). -/
def portfolioSelfScore (project : MonitorProject) : JsVal := project.selfScore.or (.str "-")

/-- The teacher score in the student portfolio list (line 734). -/
def portfolioTeacherScore (project : MonitorProject) : JsVal :=
  project.teacherScore.or (.str "-")

/-- The self score on the monitor card (line 652). -/
def monitorSelfScore (activeProject : MonitorProject) : JsVal :=
  activeProject.selfScore.or (.str "-")

/-- The self-score line of the exported report (line 586). -/
def reportSelfScoreLine (activeProject : MonitorProject) : String :=
  "- **Self Score**: " ++ (activeProject.selfScore.or (.str "N/A")).toStr

/-- The teacher-score line of the exported report (line 587). -/
def reportTeacherScoreLine (activeProject : MonitorProject) : String :=
  "- **Teacher Score**: " ++ (activeProject.teacherScore.or (.str "N/A")).toStr

/-- A student and a project recorded under the student's email in its `owner` field,
used to compare the monitor card with the report export. -/
def sampleStudent : UserDoc :=
  { uid := "u1", email := .str "ann@school.edu", displayName := .str "Ann",
    role := .str "student", isOnline := .bool true, lastActive := some 1000 }

/-- The project of `sampleStudent`. -/
def sampleOwnedProject : MonitorProject :=
  { id := "p1", title := .str "Iris", owner := .str "ann@school.edu", ownerId := .undefined,
    status := .str "submitted", selfScore := .num 0, teacherScore := .num 0,
    updatedAt := some 500 }

/-- The trace of a log storm cut at its pauses: the events before the first `delay`,
between consecutive ones, and after the last. -/
def stormSegments : List StormEvent → List (List StormEvent)
  | [] => [[]]
  | .delay _ :: rest => [] :: stormSegments rest
  | e :: rest =>
    match stormSegments rest with
    | [] => [[e]]
    | seg :: segs => (e :: seg) :: segs

/-! # Lemmas and theorems -/

/-! ## Consistency lab: slot claim -/

theorem attemptClaim_not_available (fault : Option String) (s : String) (now : Int)
    (d : SlotDoc) (h : d.status ≠ .str "available") :
    attemptClaim fault s now (some d) = (some d, claimError s) := by
  cases fault <;> simp [attemptClaim, runTransaction, claimBody, h, claimError]

theorem attemptClaim_missing (fault : Option String) (s : String) (now : Int) :
    attemptClaim fault s now none = (none, claimError s) := by
  cases fault <;> simp [attemptClaim, runTransaction, claimBody, claimError]

theorem attemptClaim_fault (e : String) (s : String) (now : Int) (store : SlotStore) :
    attemptClaim (some e) s now store = (store, claimError s) := by
  simp [attemptClaim, runTransaction, claimError]

theorem attemptClaim_available (s : String) (now : Int) (d : SlotDoc)
    (h : d.status = .str "available") :
    attemptClaim none s now (some d) =
      (some { status := .str "occupied", winner := .str s,
              version := (d.version.or (.num 0)).add (.num 1), updatedAt := .num now },
       { status := "success", id := s, version := (d.version.or (.num 0)).add (.num 1),
         error := .undefined }) := by
  simp [attemptClaim, runTransaction, claimBody, h]

theorem runSerial_occupied (rest : List String) (now : Int) (d : SlotDoc)
    (h : d.status ≠ .str "available") :
    runSerial rest now (some d) = (some d, rest.map claimError) := by
  induction rest generalizing now with
  | nil => rfl
  | cons s rest ih =>
    simp [runSerial, attemptClaim_not_available none s now d h, ih]

theorem find_claimError (rest : List String) (s : String) (h : s ∈ rest) :
    (rest.map claimError).find? (fun r => r.id == s) = some (claimError s) := by
  induction rest with
  | nil => simp at h
  | cons t rest ih =>
    rw [List.map_cons, List.find?_cons]
    by_cases hts : t = s
    · subst hts
      have ht : ((claimError t).id == t) = true := by simp [claimError]
      simp only [ht]
    · have hs : s ∈ rest := by
        rcases List.mem_cons.mp h with h1 | h1
        · exact absurd h1.symm hts
        · exact h1
      have ht : ((claimError t).id == s) = false := by simp [claimError, hts]
      simp only [ht]
      exact ih hs

theorem runSlotClaimSimulation_results (w : String) (rest : List String) (now : Int)
    (store : SlotStore) (h : ∀ s ∈ students, s ∈ w :: rest) :
    runSlotClaimSimulation (w :: rest) now store =
      (some { status := .str "occupied", winner := .str w, version := .num 2,
              updatedAt := .num (now + 1) },
       students.map (fun s => if w = s then
          { status := "success", id := w, version := .num 2, error := .undefined }
          else claimError s)) := by
  have hocc : ({ status := .str "occupied", winner := .str w, version := .num 2,
                  updatedAt := .num (now + 1) } : SlotDoc).status ≠ .str "available" := by
    simp
  have hrun : runSerial (w :: rest) (now + 1) (resetSlot now store) =
      (some { status := .str "occupied", winner := .str w, version := .num 2,
              updatedAt := .num (now + 1) },
       ({ status := "success", id := w, version := .num 2, error := .undefined } : ClaimResult)
         :: rest.map claimError) := by
    have h1 := attemptClaim_available w (now + 1)
      { status := .str "available", winner := .null, version := .num 1, updatedAt := .num now } rfl
    have hv : ((JsVal.num 1).or (.num 0)).add (.num 1) = .num 2 := by decide
    rw [hv] at h1
    simp only [runSerial, resetSlot, h1, runSerial_occupied rest (now + 1 + 1) _ hocc]
  unfold runSlotClaimSimulation
  rw [hrun]
  simp only
  congr 1
  refine Eq.trans (List.filterMap_congr ?_) (congrFun (List.filterMap_eq_map _) students)
  intro s hs
  rw [List.find?_cons]
  by_cases hfs : w = s
  · subst hfs; simp
  · have hmem : s ∈ rest := by
      rcases List.mem_cons.mp (h s hs) with h1 | h1
      · exact absurd h1.symm hfs
      · exact h1
    have ht : ((w == s) = false) := by simp [hfs]
    simp only [ht, hfs, if_false, Function.comp]
    exact find_claimError rest s hmem

/-- C1: with the store's transaction modelled as atomic, for every serial order of the
five `attemptClaim` transactions of `runSlotClaimSimulation`, started from the slot
written by `resetSlot`, exactly one result has status `success`, the other four have
status `error`, the successful result belongs to the student whose transaction ran
first, and that student is the winner stored in the slot. -/
theorem slot_claim_single_winner (order : List String) (now : Int) (store : SlotStore)
    (h : order.Perm students) :
    ∃ w, order.head? = some w ∧
      ((runSlotClaimSimulation order now store).2.filter
          (fun r => r.status = "success")).length = 1 ∧
      ((runSlotClaimSimulation order now store).2.filter
          (fun r => r.status = "error")).length = 4 ∧
      (runSlotClaimSimulation order now store).2.length = 5 ∧
      (∀ r ∈ (runSlotClaimSimulation order now store).2, r.status = "success" → r.id = w) ∧
      (runSlotClaimSimulation order now store).1.map (fun d => (d.status, d.winner))
        = some (.str "occupied", .str w) := by
  cases order with
  | nil => exact absurd h.length_eq (by decide)
  | cons w rest =>
    have hall : ∀ s ∈ students, s ∈ w :: rest := fun s hs => h.symm.subset hs
    have hw : w ∈ students := h.subset (List.mem_cons_self w rest)
    refine ⟨w, rfl, ?_⟩
    rw [runSlotClaimSimulation_results w rest now store hall]
    simp only [students, List.mem_cons, List.mem_singleton, List.not_mem_nil, or_false] at hw
    rcases hw with rfl | rfl | rfl | rfl | rfl <;>
      simp [students, claimError]

/-- Witness for C1: the order in which the students were listed. -/
theorem slot_claim_single_winner_witness :
    ∃ w, students.head? = some w ∧
      ((runSlotClaimSimulation students 0 none).2.filter
          (fun r => r.status = "success")).length = 1 ∧
      ((runSlotClaimSimulation students 0 none).2.filter
          (fun r => r.status = "error")).length = 4 ∧
      (runSlotClaimSimulation students 0 none).2.length = 5 ∧
      (∀ r ∈ (runSlotClaimSimulation students 0 none).2, r.status = "success" → r.id = w) ∧
      (runSlotClaimSimulation students 0 none).1.map (fun d => (d.status, d.winner))
        = some (.str "occupied", .str w) :=
  slot_claim_single_winner students 0 none (List.Perm.refl _)

/-- C2: the transaction of `attemptClaim`, for every slot state and student id.  If the
slot document exists with status `available`, the slot becomes `occupied` with the
student as winner and version (old version, or 0 when falsy) + 1, and the call returns
success with that version; if the document is missing or its status is not `available`,
the slot is left as it was and the call returns status `error`. -/
theorem attemptClaim_spec (studentId : String) (now : Int) (store : SlotStore) :
    (∀ data, store = some data → data.status = .str "available" →
      attemptClaim none studentId now store =
        (some { status := .str "occupied", winner := .str studentId,
                version := JsVal.add (if data.version.truthy then data.version else .num 0)
                             (.num 1),
                updatedAt := .num now },
         { status := "success", id := studentId,
           version := JsVal.add (if data.version.truthy then data.version else .num 0)
                        (.num 1),
           error := .undefined })) ∧
    (∀ n : Int, JsVal.add (if (JsVal.num n).truthy then .num n else .num 0) (.num 1)
        = .num (if n = 0 then 1 else n + 1)) ∧
    (JsVal.add (if JsVal.undefined.truthy then .undefined else .num 0) (.num 1) = .num 1) ∧
    ((store = none ∨ ∃ data, store = some data ∧ data.status ≠ .str "available") →
      (attemptClaim none studentId now store).1 = store ∧
      (attemptClaim none studentId now store).2.status = "error") := by
  refine ⟨?_, ?_, by decide, ?_⟩
  · intro data hs ha
    subst hs
    rw [attemptClaim_available studentId now data ha]
    rfl
  · intro n
    by_cases hn : n = 0
    · subst hn; decide
    · simp [JsVal.truthy, JsVal.add, JsVal.toNum, hn]
  · rintro (hs | ⟨data, hs, hna⟩)
    · subst hs
      rw [attemptClaim_missing]
      exact ⟨rfl, rfl⟩
    · subst hs
      rw [attemptClaim_not_available none studentId now data hna]
      exact ⟨rfl, rfl⟩

/-- Witness for C2: an available slot at version 1, and an occupied one. -/
theorem attemptClaim_spec_witness :
    attemptClaim none "Student A" 7
        (some { status := .str "available", winner := .null, version := .num 1,
                updatedAt := .num 0 }) =
      (some { status := .str "occupied", winner := .str "Student A", version := .num 2,
              updatedAt := .num 7 },
       { status := "success", id := "Student A", version := .num 2, error := .undefined }) ∧
    (attemptClaim none "Student B" 8
        (some { status := .str "occupied", winner := .str "Student A", version := .num 2,
                updatedAt := .num 7 })).1 =
      some { status := .str "occupied", winner := .str "Student A", version := .num 2,
             updatedAt := .num 7 } ∧
    (attemptClaim none "Student B" 8
        (some { status := .str "occupied", winner := .str "Student A", version := .num 2,
                updatedAt := .num 7 })).2.status = "error" :=
  ⟨(attemptClaim_spec "Student A" 7 _).1 _ rfl rfl,
   ((attemptClaim_spec "Student B" 8 _).2.2.2 (Or.inr ⟨_, rfl, by decide⟩)).1,
   ((attemptClaim_spec "Student B" 8 _).2.2.2 (Or.inr ⟨_, rfl, by decide⟩)).2⟩

/-! ## Consistency lab: failure messages -/

theorem fail_prefix_ne_err_prefix (a b : String) : "[FAIL] " ++ a ≠ "[ERR] " ++ b := by
  intro h
  have h2 := congrArg String.data h
  rw [String.data_append, String.data_append] at h2
  have h3 : ("[FAIL] " : String).data = ['[', 'F', 'A', 'I', 'L', ']', ' '] := rfl
  have h4 : ("[ERR] " : String).data = ['[', 'E', 'R', 'R', ']', ' '] := rfl
  rw [h3, h4] at h2
  simp at h2

/-- C4, as stated, fails: a claim rejected because the slot is occupied, a claim that
fails because the slot document does not exist, and a claim the store itself rejects
all produce the same log line. -/
theorem claim_failures_share_one_log_line :
    claimLog (attemptClaim none "Student B" 1
        (some { status := .str "occupied", winner := .str "Student A", version := .num 2,
                updatedAt := .num 0 })).2 =
      claimLog (attemptClaim none "Student B" 1 none).2 ∧
    claimLog (attemptClaim none "Student B" 1
        (some { status := .str "occupied", winner := .str "Student A", version := .num 2,
                updatedAt := .num 0 })).2 =
      claimLog (attemptClaim (some "unavailable") "Student B" 1
        (some { status := .str "available", winner := .null, version := .num 1,
                updatedAt := .num 0 })).2 := by
  decide

theorem claimLog_of_failure (fault : Option String) (studentId : String) (now : Int)
    (store : SlotStore)
    (hfail : (attemptClaim fault studentId now store).2.status ≠ "success") :
    claimLog (attemptClaim fault studentId now store).2 =
      ("error", "[FAIL] " ++ studentId ++ " Failed: Resource Locked | Transaction Aborted") := by
  have hres : (attemptClaim fault studentId now store).2 = claimError studentId := by
    cases fault with
    | some e => rw [attemptClaim_fault]
    | none =>
      cases store with
      | none => rw [attemptClaim_missing]
      | some d =>
        by_cases ha : d.status = .str "available"
        · rw [attemptClaim_available studentId now d ha] at hfail
          exact absurd rfl hfail
        · rw [attemptClaim_not_available none studentId now d ha]
  rw [hres]
  simp [claimLog, claimError]

/-! ## Consistency lab: log storm -/

theorem stormStudents_chunks :
    stormStudents.length = 50 ∧
    ∀ k < 5, (stormStudents.drop (10 * k)).take 10 = stormChunk k := by
  decide

theorem runLogStormSimulation_trace (env : StormEnv) :
    runLogStormSimulation env false = some
      ([ .setTesting true, .log "warning" "[INFO] Initiating 50-User Concurrent Log Storm..." ]
        ++ stormChunkEvents env (stormChunk 0) ++ [.delay 50]
        ++ stormChunkEvents env (stormChunk 1) ++ [.delay 50]
        ++ stormChunkEvents env (stormChunk 2) ++ [.delay 50]
        ++ stormChunkEvents env (stormChunk 3) ++ [.delay 50]
        ++ stormChunkEvents env (stormChunk 4) ++ [.delay 50]
        ++ [ .log "success" "[DONE] Log Storm Simulation Completed.", .setTesting false ]) := by
  rfl

theorem mem_prefix_of_split {α : Type} (P R pre post : List α) (x y : α)
    (h : P ++ R = pre ++ x :: post) (hx : x ∉ P) (hy : y ∈ P) : y ∈ pre := by
  induction P generalizing pre with
  | nil => simp at hy
  | cons p P ih =>
    cases pre with
    | nil =>
      simp only [List.cons_append, List.nil_append, List.cons.injEq] at h
      exact absurd (h.1 ▸ List.mem_cons_self p P) hx
    | cons q pre =>
      simp only [List.cons_append, List.cons.injEq] at h
      obtain ⟨hpq, hrest⟩ := h
      subst hpq
      rcases List.mem_cons.mp hy with hy1 | hy1
      · exact hy1 ▸ List.mem_cons_self _ _
      · exact List.mem_cons_of_mem _ (ih pre hrest (fun hm => hx (List.mem_cons_of_mem _ hm)) hy1)

theorem addDoc_mem_stormChunkEvents (env : StormEnv) (chunk : List String) (coll : String)
    (r : StormRecord) (h : StormEvent.addDoc coll r ∈ stormChunkEvents env chunk) :
    r.studentId ∈ chunk := by
  simp only [stormChunkEvents, List.mem_append, List.mem_flatMap] at h
  rcases h with ⟨s, hs, hmem⟩ | ⟨s, _, hmem⟩
  · simp only [stormIssue, List.mem_cons, List.mem_singleton, StormEvent.addDoc.injEq,
      List.not_mem_nil, or_false] at hmem
    rcases hmem with hmem | hmem
    · cases hmem
    · rw [hmem.2]; exact hs
  · unfold stormSettle at hmem
    cases hf : env.failure s <;> simp [hf] at hmem

theorem settled_mem_stormChunkEvents (env : StormEnv) (chunk : List String) (a : String)
    (hsched : (env.sched chunk).Perm chunk) (ha : a ∈ chunk) :
    StormEvent.settled a (env.failure a).isNone ∈ stormChunkEvents env chunk := by
  simp only [stormChunkEvents, List.mem_append, List.mem_flatMap]
  refine Or.inr ⟨a, hsched.symm.subset ha, ?_⟩
  unfold stormSettle
  cases hf : env.failure a <;> simp

theorem writesOf_append (l₁ l₂ : List StormEvent) :
    writesOf (l₁ ++ l₂) = writesOf l₁ ++ writesOf l₂ := by
  simp [writesOf, List.filterMap_append]

theorem writesOf_issue (env : StormEnv) (chunk : List String) :
    writesOf (chunk.flatMap (stormIssue env)) = chunk := by
  induction chunk with
  | nil => rfl
  | cons s chunk ih =>
    rw [List.flatMap_cons, writesOf_append, ih]
    rfl

theorem writesOf_settle (env : StormEnv) (l : List String) :
    writesOf (l.flatMap (stormSettle env)) = [] := by
  induction l with
  | nil => rfl
  | cons s l ih =>
    rw [List.flatMap_cons, writesOf_append, ih]
    unfold stormSettle
    cases hf : env.failure s <;> rfl

theorem writesOf_stormChunkEvents (env : StormEnv) (chunk : List String) :
    writesOf (stormChunkEvents env chunk) = chunk := by
  rw [stormChunkEvents, writesOf_append, writesOf_issue, writesOf_settle, List.append_nil]

theorem stormChunk_disjoint :
    ∀ p ∈ [(0, 1), (0, 2), (1, 2), (0, 3), (1, 3), (2, 3), (0, 4), (1, 4), (2, 4), (3, 4)],
      ∀ s ∈ stormChunk p.2, s ∉ stormChunk p.1 := by
  decide

theorem addDoc_not_mem_earlier (env : StormEnv) (j k : Nat) (coll : String) (r : StormRecord)
    (hjk : (j, k) ∈ [(0, 1), (0, 2), (1, 2), (0, 3), (1, 3), (2, 3), (0, 4), (1, 4), (2, 4),
      (3, 4)])
    (hr : r.studentId ∈ stormChunk k) :
    StormEvent.addDoc coll r ∉ stormChunkEvents env (stormChunk j) :=
  fun hmem => stormChunk_disjoint (j, k) hjk r.studentId hr
    (addDoc_mem_stormChunkEvents env _ coll r hmem)

theorem stormSegments_append_delay (a rest : List StormEvent) (n : Nat)
    (h : ∀ m, StormEvent.delay m ∉ a) :
    stormSegments (a ++ StormEvent.delay n :: rest) = a :: stormSegments rest := by
  induction a with
  | nil => rfl
  | cons e a ih =>
    have hrest : ∀ m, StormEvent.delay m ∉ a := fun m hm => h m (List.mem_cons_of_mem _ hm)
    have he : ∀ m, e ≠ StormEvent.delay m := fun m hm => h m (hm ▸ List.mem_cons_self _ _)
    cases e with
    | delay m => exact absurd rfl (he m)
    | setTesting b => simp [stormSegments, ih hrest]
    | log t msg => simp [stormSegments, ih hrest]
    | addDoc c r => simp [stormSegments, ih hrest]
    | settled s ok => simp [stormSegments, ih hrest]

theorem delay_not_mem_stormChunkEvents (env : StormEnv) (chunk : List String) (m : Nat) :
    StormEvent.delay m ∉ stormChunkEvents env chunk := by
  intro h
  simp only [stormChunkEvents, List.mem_append, List.mem_flatMap] at h
  rcases h with ⟨s, _, hmem⟩ | ⟨s, _, hmem⟩
  · simp [stormIssue] at hmem
  · unfold stormSettle at hmem
    cases hf : env.failure s <;> simp [hf] at hmem

theorem settled_not_mem_issue (env : StormEnv) (chunk : List String) (a : String) (ok : Bool) :
    StormEvent.settled a ok ∉ chunk.flatMap (stormIssue env) := by
  intro h
  simp only [List.mem_flatMap] at h
  obtain ⟨s, _, hmem⟩ := h
  simp [stormIssue] at hmem

theorem settled_mem_stormChunkEvents_id (env : StormEnv) (chunk : List String) (a : String)
    (ok : Bool) (hsched : (env.sched chunk).Perm chunk)
    (h : StormEvent.settled a ok ∈ stormChunkEvents env chunk) : a ∈ chunk := by
  simp only [stormChunkEvents, List.mem_append, List.mem_flatMap] at h
  rcases h with ⟨s, _, hmem⟩ | ⟨s, hs, hmem⟩
  · simp [stormIssue] at hmem
  · unfold stormSettle at hmem
    cases hf : env.failure s <;> simp [hf, stormFailLog] at hmem
    · rw [hmem.1]; exact hsched.subset hs
    · rw [hmem.1]; exact hsched.subset hs

theorem settled_not_mem_earlier (env : StormEnv) (hsched : ∀ l, (env.sched l).Perm l)
    (j k : Nat) (a : String) (ok : Bool)
    (hjk : (j, k) ∈ [(0, 1), (0, 2), (1, 2), (0, 3), (1, 3), (2, 3), (0, 4), (1, 4), (2, 4),
      (3, 4)])
    (ha : a ∈ stormChunk k) :
    StormEvent.settled a ok ∉ stormChunkEvents env (stormChunk j) :=
  fun hmem => stormChunk_disjoint (j, k) hjk a ha
    (settled_mem_stormChunkEvents_id env _ a ok (hsched _) hmem)

theorem addDoc_mem_issue (env : StormEnv) (chunk : List String) (b : String) (hb : b ∈ chunk) :
    ∃ r, StormEvent.addDoc "experiment_results" r ∈ chunk.flatMap (stormIssue env) ∧
      r.studentId = b := by
  refine ⟨{ studentId := b, status := if env.randomError b then "Error" else "Success",
            output := "Simulated output from " ++ b, accuracy := env.accuracy b }, ?_, rfl⟩
  simp only [List.mem_flatMap]
  exact ⟨b, hb, by simp [stormIssue]⟩

theorem storm_batch_issued (env : StormEnv) (hsched : ∀ l, (env.sched l).Perm l) :
    ∀ k < 5, ∀ pre post a ok,
      ([ .setTesting true, .log "warning" "[INFO] Initiating 50-User Concurrent Log Storm..." ]
        ++ stormChunkEvents env (stormChunk 0) ++ [.delay 50]
        ++ stormChunkEvents env (stormChunk 1) ++ [.delay 50]
        ++ stormChunkEvents env (stormChunk 2) ++ [.delay 50]
        ++ stormChunkEvents env (stormChunk 3) ++ [.delay 50]
        ++ stormChunkEvents env (stormChunk 4) ++ [.delay 50]
        ++ [ .log "success" "[DONE] Log Storm Simulation Completed.", .setTesting false ]) = pre ++ StormEvent.settled a ok :: post →
      a ∈ stormChunk k →
      ∀ b ∈ stormChunk k, ∃ r, StormEvent.addDoc "experiment_results" r ∈ pre ∧
        r.studentId = b := by
  intro k hk pre post a ok htr ha b hb
  obtain ⟨r, hr, hid⟩ := addDoc_mem_issue env (stormChunk k) b hb
  refine ⟨r, ?_, hid⟩
  interval_cases k
  · exact mem_prefix_of_split
      ([ .setTesting true, .log "warning" "[INFO] Initiating 50-User Concurrent Log Storm..." ]
        ++ (stormChunk 0).flatMap (stormIssue env)) _ pre post _ _
      (Eq.trans (by simp only [stormChunkEvents, List.append_assoc]; rfl) htr)
      (List.not_mem_append (by simp)
        (settled_not_mem_issue env _ a ok))
      (List.mem_append_right _ hr)
  · exact mem_prefix_of_split
      ([ .setTesting true, .log "warning" "[INFO] Initiating 50-User Concurrent Log Storm..." ]
        ++ stormChunkEvents env (stormChunk 0) ++ [.delay 50]
        ++ (stormChunk 1).flatMap (stormIssue env)) _ pre post _ _
      (Eq.trans (by simp only [stormChunkEvents, List.append_assoc]; rfl) htr)
      (List.not_mem_append (List.not_mem_append (List.not_mem_append (by simp)
        (settled_not_mem_earlier env hsched 0 1 a ok (by decide) ha)) (by simp))
        (settled_not_mem_issue env _ a ok))
      (List.mem_append_right _ hr)
  · exact mem_prefix_of_split
      ([ .setTesting true, .log "warning" "[INFO] Initiating 50-User Concurrent Log Storm..." ]
        ++ stormChunkEvents env (stormChunk 0) ++ [.delay 50]
        ++ stormChunkEvents env (stormChunk 1) ++ [.delay 50]
        ++ (stormChunk 2).flatMap (stormIssue env)) _ pre post _ _
      (Eq.trans (by simp only [stormChunkEvents, List.append_assoc]; rfl) htr)
      (List.not_mem_append (List.not_mem_append (List.not_mem_append (List.not_mem_append (List.not_mem_append (by simp)
        (settled_not_mem_earlier env hsched 0 2 a ok (by decide) ha)) (by simp))
        (settled_not_mem_earlier env hsched 1 2 a ok (by decide) ha)) (by simp))
        (settled_not_mem_issue env _ a ok))
      (List.mem_append_right _ hr)
  · exact mem_prefix_of_split
      ([ .setTesting true, .log "warning" "[INFO] Initiating 50-User Concurrent Log Storm..." ]
        ++ stormChunkEvents env (stormChunk 0) ++ [.delay 50]
        ++ stormChunkEvents env (stormChunk 1) ++ [.delay 50]
        ++ stormChunkEvents env (stormChunk 2) ++ [.delay 50]
        ++ (stormChunk 3).flatMap (stormIssue env)) _ pre post _ _
      (Eq.trans (by simp only [stormChunkEvents, List.append_assoc]; rfl) htr)
      (List.not_mem_append (List.not_mem_append (List.not_mem_append (List.not_mem_append (List.not_mem_append (List.not_mem_append (List.not_mem_append (by simp)
        (settled_not_mem_earlier env hsched 0 3 a ok (by decide) ha)) (by simp))
        (settled_not_mem_earlier env hsched 1 3 a ok (by decide) ha)) (by simp))
        (settled_not_mem_earlier env hsched 2 3 a ok (by decide) ha)) (by simp))
        (settled_not_mem_issue env _ a ok))
      (List.mem_append_right _ hr)
  · exact mem_prefix_of_split
      ([ .setTesting true, .log "warning" "[INFO] Initiating 50-User Concurrent Log Storm..." ]
        ++ stormChunkEvents env (stormChunk 0) ++ [.delay 50]
        ++ stormChunkEvents env (stormChunk 1) ++ [.delay 50]
        ++ stormChunkEvents env (stormChunk 2) ++ [.delay 50]
        ++ stormChunkEvents env (stormChunk 3) ++ [.delay 50]
        ++ (stormChunk 4).flatMap (stormIssue env)) _ pre post _ _
      (Eq.trans (by simp only [stormChunkEvents, List.append_assoc]; rfl) htr)
      (List.not_mem_append (List.not_mem_append (List.not_mem_append (List.not_mem_append (List.not_mem_append (List.not_mem_append (List.not_mem_append (List.not_mem_append (List.not_mem_append (by simp)
        (settled_not_mem_earlier env hsched 0 4 a ok (by decide) ha)) (by simp))
        (settled_not_mem_earlier env hsched 1 4 a ok (by decide) ha)) (by simp))
        (settled_not_mem_earlier env hsched 2 4 a ok (by decide) ha)) (by simp))
        (settled_not_mem_earlier env hsched 3 4 a ok (by decide) ha)) (by simp))
        (settled_not_mem_issue env _ a ok))
      (List.mem_append_right _ hr)

theorem storm_segments (env : StormEnv) :
    (stormSegments
      ([ .setTesting true, .log "warning" "[INFO] Initiating 50-User Concurrent Log Storm..." ]
        ++ stormChunkEvents env (stormChunk 0) ++ [.delay 50]
        ++ stormChunkEvents env (stormChunk 1) ++ [.delay 50]
        ++ stormChunkEvents env (stormChunk 2) ++ [.delay 50]
        ++ stormChunkEvents env (stormChunk 3) ++ [.delay 50]
        ++ stormChunkEvents env (stormChunk 4) ++ [.delay 50]
        ++ [ .log "success" "[DONE] Log Storm Simulation Completed.", .setTesting false ])).map writesOf
      = [stormChunk 0, stormChunk 1, stormChunk 2, stormChunk 3, stormChunk 4, []] := by
  have hstart : ∀ m, StormEvent.delay m ∉
      ([ .setTesting true, .log "warning" "[INFO] Initiating 50-User Concurrent Log Storm..." ]
        ++ stormChunkEvents env (stormChunk 0) : List StormEvent) := by
    intro m
    exact List.not_mem_append (by simp) (delay_not_mem_stormChunkEvents env _ m)
  have hshape : ([ .setTesting true, .log "warning" "[INFO] Initiating 50-User Concurrent Log Storm..." ]
        ++ stormChunkEvents env (stormChunk 0) ++ [.delay 50]
        ++ stormChunkEvents env (stormChunk 1) ++ [.delay 50]
        ++ stormChunkEvents env (stormChunk 2) ++ [.delay 50]
        ++ stormChunkEvents env (stormChunk 3) ++ [.delay 50]
        ++ stormChunkEvents env (stormChunk 4) ++ [.delay 50]
        ++ [ .log "success" "[DONE] Log Storm Simulation Completed.", .setTesting false ])
      = ([ .setTesting true, .log "warning" "[INFO] Initiating 50-User Concurrent Log Storm..." ]
          ++ stormChunkEvents env (stormChunk 0)) ++ StormEvent.delay 50 ::
        (stormChunkEvents env (stormChunk 1) ++ StormEvent.delay 50 ::
        (stormChunkEvents env (stormChunk 2) ++ StormEvent.delay 50 ::
        (stormChunkEvents env (stormChunk 3) ++ StormEvent.delay 50 ::
        (stormChunkEvents env (stormChunk 4) ++ StormEvent.delay 50 ::
          [ .log "success" "[DONE] Log Storm Simulation Completed.", .setTesting false ])))) := by
    simp only [List.append_assoc, List.singleton_append, List.cons_append, List.nil_append]
  rw [hshape,
    stormSegments_append_delay _ _ _ hstart,
    stormSegments_append_delay _ _ _ (delay_not_mem_stormChunkEvents env _),
    stormSegments_append_delay _ _ _ (delay_not_mem_stormChunkEvents env _),
    stormSegments_append_delay _ _ _ (delay_not_mem_stormChunkEvents env _),
    stormSegments_append_delay _ _ _ (delay_not_mem_stormChunkEvents env _)]
  simp only [List.map_cons, List.map_nil, writesOf_append, writesOf_stormChunkEvents]
  rfl

/-- C3: for every behaviour of the store (which writes fail, in which order the writes
of a chunk settle), `runLogStormSimulation` runs to completion and issues exactly 50
writes to `experiment_results`, one for each of `Student_1` to `Student_50` in this
order, none repeated; writes `10k+1` to `10k+10` are those of chunk `k`; whenever a
write of chunk `k+1` is issued, every write of chunk `k` has already settled; the ten
writes of a chunk are issued as one batch, all of them before any of them settles; and
the pauses of the loop cut the trace into the five chunks of exactly ten writes. -/
theorem log_storm_writes (env : StormEnv) (hsched : ∀ l, (env.sched l).Perm l) :
    ∃ tr, runLogStormSimulation env false = some tr ∧
      writesOf tr = (List.range 50).map (fun i => "Student_" ++ toString (i + 1)) ∧
      (writesOf tr).length = 50 ∧
      (writesOf tr).Nodup ∧
      (∀ coll r, StormEvent.addDoc coll r ∈ tr → coll = "experiment_results") ∧
      (∀ k < 5, ((writesOf tr).drop (10 * k)).take 10 = stormChunk k) ∧
      (∀ k, k + 1 < 5 → ∀ pre post coll r, tr = pre ++ StormEvent.addDoc coll r :: post →
        r.studentId ∈ stormChunk (k + 1) →
        ∀ a ∈ stormChunk k, StormEvent.settled a (env.failure a).isNone ∈ pre) ∧
      (∀ k < 5, ∀ pre post a ok, tr = pre ++ StormEvent.settled a ok :: post →
        a ∈ stormChunk k →
        ∀ b ∈ stormChunk k, ∃ r, StormEvent.addDoc "experiment_results" r ∈ pre ∧
          r.studentId = b) ∧
      (stormSegments tr).map writesOf
        = [stormChunk 0, stormChunk 1, stormChunk 2, stormChunk 3, stormChunk 4, []] := by
  refine ⟨_, runLogStormSimulation_trace env, ?_⟩
  have hw : writesOf
      ([ .setTesting true, .log "warning" "[INFO] Initiating 50-User Concurrent Log Storm..." ]
        ++ stormChunkEvents env (stormChunk 0) ++ [.delay 50]
        ++ stormChunkEvents env (stormChunk 1) ++ [.delay 50]
        ++ stormChunkEvents env (stormChunk 2) ++ [.delay 50]
        ++ stormChunkEvents env (stormChunk 3) ++ [.delay 50]
        ++ stormChunkEvents env (stormChunk 4) ++ [.delay 50]
        ++ [ .log "success" "[DONE] Log Storm Simulation Completed.", .setTesting false ])
      = (List.range 50).map (fun i => "Student_" ++ toString (i + 1)) := by
    simp only [writesOf_append, writesOf_stormChunkEvents]
    decide
  rw [hw]
  refine ⟨rfl, by decide, by decide, ?_, by decide, ?_, storm_batch_issued env hsched,
    storm_segments env⟩
  · intro coll r hmem
    simp only [List.mem_append, List.mem_cons, List.mem_singleton, List.not_mem_nil,
      or_false, false_or, reduceCtorEq, stormChunkEvents, List.mem_flatMap] at hmem
    have hissue : ∀ s, StormEvent.addDoc coll r ∈ stormIssue env s →
        coll = "experiment_results" := by
      intro s hs
      simp only [stormIssue, List.mem_cons, List.mem_singleton, List.not_mem_nil, or_false,
        reduceCtorEq, false_or, StormEvent.addDoc.injEq] at hs
      exact hs.1
    have hsettle : ∀ s, StormEvent.addDoc coll r ∉ stormSettle env s := by
      intro s hs
      unfold stormSettle at hs
      cases hf : env.failure s <;> simp [hf] at hs
    rcases hmem with ((((⟨s, _, h⟩ | ⟨s, _, h⟩) | (⟨s, _, h⟩ | ⟨s, _, h⟩)) |
      (⟨s, _, h⟩ | ⟨s, _, h⟩)) | (⟨s, _, h⟩ | ⟨s, _, h⟩)) | (⟨s, _, h⟩ | ⟨s, _, h⟩)
    all_goals first
      | exact hissue s h
      | exact absurd h (hsettle s)
  · intro k hk pre post coll r htr hr a ha
    have hk4 : k < 4 := by omega
    have hset := fun j => settled_mem_stormChunkEvents env (stormChunk j) a (hsched _)
    interval_cases k
    · exact mem_prefix_of_split
        ([ .setTesting true,
           .log "warning" "[INFO] Initiating 50-User Concurrent Log Storm..." ]
          ++ stormChunkEvents env (stormChunk 0)) _ pre post _ _
        (Eq.trans (by simp only [List.append_assoc]; rfl) htr)
        (List.not_mem_append (by simp)
          (addDoc_not_mem_earlier env 0 1 coll r (by decide) hr))
        (List.mem_append_right _ (hset 0 ha))
    · exact mem_prefix_of_split
        ([ .setTesting true,
           .log "warning" "[INFO] Initiating 50-User Concurrent Log Storm..." ]
          ++ stormChunkEvents env (stormChunk 0)
          ++ [.delay 50]
          ++ stormChunkEvents env (stormChunk 1)) _ pre post _ _
        (Eq.trans (by simp only [List.append_assoc]; rfl) htr)
        (List.not_mem_append (List.not_mem_append (List.not_mem_append (by simp)
          (addDoc_not_mem_earlier env 0 2 coll r (by decide) hr)) (by simp))
          (addDoc_not_mem_earlier env 1 2 coll r (by decide) hr))
        (List.mem_append_right _ (hset 1 ha))
    · exact mem_prefix_of_split
        ([ .setTesting true,
           .log "warning" "[INFO] Initiating 50-User Concurrent Log Storm..." ]
          ++ stormChunkEvents env (stormChunk 0)
          ++ [.delay 50]
          ++ stormChunkEvents env (stormChunk 1)
          ++ [.delay 50]
          ++ stormChunkEvents env (stormChunk 2)) _ pre post _ _
        (Eq.trans (by simp only [List.append_assoc]; rfl) htr)
        (List.not_mem_append (List.not_mem_append (List.not_mem_append (List.not_mem_append (List.not_mem_append (by simp)
          (addDoc_not_mem_earlier env 0 3 coll r (by decide) hr)) (by simp))
          (addDoc_not_mem_earlier env 1 3 coll r (by decide) hr)) (by simp))
          (addDoc_not_mem_earlier env 2 3 coll r (by decide) hr))
        (List.mem_append_right _ (hset 2 ha))
    · exact mem_prefix_of_split
        ([ .setTesting true,
           .log "warning" "[INFO] Initiating 50-User Concurrent Log Storm..." ]
          ++ stormChunkEvents env (stormChunk 0)
          ++ [.delay 50]
          ++ stormChunkEvents env (stormChunk 1)
          ++ [.delay 50]
          ++ stormChunkEvents env (stormChunk 2)
          ++ [.delay 50]
          ++ stormChunkEvents env (stormChunk 3)) _ pre post _ _
        (Eq.trans (by simp only [List.append_assoc]; rfl) htr)
        (List.not_mem_append (List.not_mem_append (List.not_mem_append (List.not_mem_append (List.not_mem_append (List.not_mem_append (List.not_mem_append (by simp)
          (addDoc_not_mem_earlier env 0 4 coll r (by decide) hr)) (by simp))
          (addDoc_not_mem_earlier env 1 4 coll r (by decide) hr)) (by simp))
          (addDoc_not_mem_earlier env 2 4 coll r (by decide) hr)) (by simp))
          (addDoc_not_mem_earlier env 3 4 coll r (by decide) hr))
        (List.mem_append_right _ (hset 3 ha))

/-- Witness for C3: a store that settles each chunk in reverse order and rejects the
write of `Student_7`. -/
theorem log_storm_writes_witness :
    (∀ l, (stormSampleEnv.sched l).Perm l) ∧
    ∃ tr, runLogStormSimulation stormSampleEnv false = some tr ∧
      writesOf tr = (List.range 50).map (fun i => "Student_" ++ toString (i + 1)) ∧
      (writesOf tr).length = 50 ∧
      (writesOf tr).Nodup ∧
      (∀ coll r, StormEvent.addDoc coll r ∈ tr → coll = "experiment_results") ∧
      (∀ k < 5, ((writesOf tr).drop (10 * k)).take 10 = stormChunk k) ∧
      (∀ k, k + 1 < 5 → ∀ pre post coll r, tr = pre ++ StormEvent.addDoc coll r :: post →
        r.studentId ∈ stormChunk (k + 1) →
        ∀ a ∈ stormChunk k,
          StormEvent.settled a (stormSampleEnv.failure a).isNone ∈ pre) ∧
      (∀ k < 5, ∀ pre post a ok, tr = pre ++ StormEvent.settled a ok :: post →
        a ∈ stormChunk k →
        ∀ b ∈ stormChunk k, ∃ r, StormEvent.addDoc "experiment_results" r ∈ pre ∧
          r.studentId = b) ∧
      (stormSegments tr).map writesOf
        = [stormChunk 0, stormChunk 1, stormChunk 2, stormChunk 3, stormChunk 4, []] :=
  ⟨fun l => List.reverse_perm l,
   log_storm_writes stormSampleEnv (fun l => List.reverse_perm l)⟩

theorem error_log_mem_stormChunkEvents (env : StormEnv) (chunk : List String) (msg : String)
    (hsched : (env.sched chunk).Perm chunk)
    (h : StormEvent.log "error" msg ∈ stormChunkEvents env chunk) :
    ∃ s message, s ∈ chunk ∧ env.failure s = some message ∧
      msg = "[ERR] " ++ s ++ ": Write Failed (" ++ message ++ ")" := by
  simp only [stormChunkEvents, List.mem_append, List.mem_flatMap] at h
  rcases h with ⟨s, _, hmem⟩ | ⟨s, hs, hmem⟩
  · simp [stormIssue] at hmem
  · unfold stormSettle at hmem
    cases hf : env.failure s with
    | none => simp [hf] at hmem
    | some message =>
      simp [hf, stormFailLog] at hmem
      exact ⟨s, message, hsched.subset hs, hf, hmem⟩

theorem failed_write_logged_in_chunk (env : StormEnv) (chunk : List String) (s message : String)
    (hsched : (env.sched chunk).Perm chunk) (hs : s ∈ chunk)
    (hf : env.failure s = some message) :
    StormEvent.log "error" ("[ERR] " ++ s ++ ": Write Failed (" ++ message ++ ")")
      ∈ stormChunkEvents env chunk := by
  simp only [stormChunkEvents, List.mem_append, List.mem_flatMap]
  refine Or.inr ⟨s, hsched.symm.subset hs, ?_⟩
  unfold stormSettle
  simp [hf, stormFailLog]

theorem stormStudents_mem_chunk (s : String) (hs : s ∈ stormStudents) :
    s ∈ stormChunk 0 ∨ s ∈ stormChunk 1 ∨ s ∈ stormChunk 2 ∨ s ∈ stormChunk 3
      ∨ s ∈ stormChunk 4 := by
  have h : stormStudents
      = stormChunk 0 ++ stormChunk 1 ++ stormChunk 2 ++ stormChunk 3 ++ stormChunk 4 := by
    decide
  rw [h] at hs
  simp only [List.mem_append] at hs
  tauto

theorem stormChunk_subset_students :
    ∀ k < 5, ∀ s ∈ stormChunk k, s ∈ stormStudents := by
  decide

theorem storm_trace_mem (env : StormEnv) (e : StormEvent) :
    e ∈ ([ .setTesting true, .log "warning" "[INFO] Initiating 50-User Concurrent Log Storm..." ]
        ++ stormChunkEvents env (stormChunk 0) ++ [.delay 50]
        ++ stormChunkEvents env (stormChunk 1) ++ [.delay 50]
        ++ stormChunkEvents env (stormChunk 2) ++ [.delay 50]
        ++ stormChunkEvents env (stormChunk 3) ++ [.delay 50]
        ++ stormChunkEvents env (stormChunk 4) ++ [.delay 50]
        ++ [ .log "success" "[DONE] Log Storm Simulation Completed.", .setTesting false ]) ↔
      (e = .setTesting true ∨
        e = .log "warning" "[INFO] Initiating 50-User Concurrent Log Storm..." ∨
        e = .delay 50 ∨ e = .log "success" "[DONE] Log Storm Simulation Completed." ∨
        e = .setTesting false ∨
        e ∈ stormChunkEvents env (stormChunk 0) ∨ e ∈ stormChunkEvents env (stormChunk 1) ∨
        e ∈ stormChunkEvents env (stormChunk 2) ∨ e ∈ stormChunkEvents env (stormChunk 3) ∨
        e ∈ stormChunkEvents env (stormChunk 4)) := by
  simp only [List.mem_append, List.mem_cons, List.mem_singleton, List.not_mem_nil, or_false]
  tauto

theorem storm_error_logs (env : StormEnv) (hsched : ∀ l, (env.sched l).Perm l) :
    (∀ s ∈ stormStudents, ∀ message, env.failure s = some message →
      StormEvent.log "error" ("[ERR] " ++ s ++ ": Write Failed (" ++ message ++ ")")
        ∈ ([ .setTesting true, .log "warning" "[INFO] Initiating 50-User Concurrent Log Storm..." ]
        ++ stormChunkEvents env (stormChunk 0) ++ [.delay 50]
        ++ stormChunkEvents env (stormChunk 1) ++ [.delay 50]
        ++ stormChunkEvents env (stormChunk 2) ++ [.delay 50]
        ++ stormChunkEvents env (stormChunk 3) ++ [.delay 50]
        ++ stormChunkEvents env (stormChunk 4) ++ [.delay 50]
        ++ [ .log "success" "[DONE] Log Storm Simulation Completed.", .setTesting false ])) ∧
    (∀ msg, StormEvent.log "error" msg ∈ ([ .setTesting true, .log "warning" "[INFO] Initiating 50-User Concurrent Log Storm..." ]
        ++ stormChunkEvents env (stormChunk 0) ++ [.delay 50]
        ++ stormChunkEvents env (stormChunk 1) ++ [.delay 50]
        ++ stormChunkEvents env (stormChunk 2) ++ [.delay 50]
        ++ stormChunkEvents env (stormChunk 3) ++ [.delay 50]
        ++ stormChunkEvents env (stormChunk 4) ++ [.delay 50]
        ++ [ .log "success" "[DONE] Log Storm Simulation Completed.", .setTesting false ]) →
      ∃ s message, s ∈ stormStudents ∧ env.failure s = some message ∧
        msg = "[ERR] " ++ s ++ ": Write Failed (" ++ message ++ ")") := by
  constructor
  · intro s hs message hf
    rw [storm_trace_mem]
    have hlog := fun k => failed_write_logged_in_chunk env (stormChunk k) s message (hsched _)
    rcases stormStudents_mem_chunk s hs with h | h | h | h | h
    · exact Or.inr (Or.inr (Or.inr (Or.inr (Or.inr (Or.inl (hlog 0 h hf))))))
    · exact Or.inr (Or.inr (Or.inr (Or.inr (Or.inr (Or.inr (Or.inl (hlog 1 h hf)))))))
    · exact Or.inr (Or.inr (Or.inr (Or.inr (Or.inr (Or.inr (Or.inr (Or.inl (hlog 2 h hf))))))))
    · exact Or.inr (Or.inr (Or.inr (Or.inr (Or.inr (Or.inr (Or.inr (Or.inr
        (Or.inl (hlog 3 h hf)))))))))
    · exact Or.inr (Or.inr (Or.inr (Or.inr (Or.inr (Or.inr (Or.inr (Or.inr
        (Or.inr (hlog 4 h hf)))))))))
  · intro msg hmem
    rw [storm_trace_mem] at hmem
    have hchunk : ∀ k < 5, StormEvent.log "error" msg ∈ stormChunkEvents env (stormChunk k) →
        ∃ s message, s ∈ stormStudents ∧ env.failure s = some message ∧
          msg = "[ERR] " ++ s ++ ": Write Failed (" ++ message ++ ")" := by
      intro k hk h
      obtain ⟨s, message, hs, hf, hmsg⟩ :=
        error_log_mem_stormChunkEvents env (stormChunk k) msg (hsched _) h
      exact ⟨s, message, stormChunk_subset_students k hk s hs, hf, hmsg⟩
    rcases hmem with h | h | h | h | h | h | h | h | h | h
    · cases h
    · simp at h
    · cases h
    · simp at h
    · cases h
    · exact hchunk 0 (by decide) h
    · exact hchunk 1 (by decide) h
    · exact hchunk 2 (by decide) h
    · exact hchunk 3 (by decide) h
    · exact hchunk 4 (by decide) h

/-- C4, amended: every failed claim transaction, whatever its cause, is logged as the
one line `[FAIL] <id> Failed: Resource Locked | Transaction Aborted`.  In a log storm
every write the store rejects is logged by `runLogStormSimulation` as the error line
`[ERR] <id>: Write Failed (<message>)`, these are the only error lines of the storm,
and each of them differs from the line of the failed claim. -/
theorem claim_failure_log_vs_storm_failure_log (fault : Option String) (studentId : String)
    (now : Int) (store : SlotStore) (env : StormEnv)
    (hfail : (attemptClaim fault studentId now store).2.status ≠ "success")
    (hsched : ∀ l, (env.sched l).Perm l) :
    claimLog (attemptClaim fault studentId now store).2 =
      ("error", "[FAIL] " ++ studentId ++ " Failed: Resource Locked | Transaction Aborted") ∧
    (∀ otherId message : String,
      (claimLog (attemptClaim fault studentId now store).2).2 ≠
        (stormFailLog otherId message).2) ∧
    ∃ tr, runLogStormSimulation env false = some tr ∧
      (∀ s ∈ stormStudents, ∀ message, env.failure s = some message →
        StormEvent.log "error" ("[ERR] " ++ s ++ ": Write Failed (" ++ message ++ ")")
          ∈ tr) ∧
      (∀ msg, StormEvent.log "error" msg ∈ tr →
        (∃ s message, s ∈ stormStudents ∧ env.failure s = some message ∧
          msg = "[ERR] " ++ s ++ ": Write Failed (" ++ message ++ ")") ∧
        msg ≠ (claimLog (attemptClaim fault studentId now store).2).2) := by
  have hlog := claimLog_of_failure fault studentId now store hfail
  have hne : ∀ otherId message : String,
      (claimLog (attemptClaim fault studentId now store).2).2 ≠
        (stormFailLog otherId message).2 := by
    intro otherId message
    rw [hlog]
    simp only [stormFailLog, String.append_assoc]
    exact fail_prefix_ne_err_prefix _ _
  refine ⟨hlog, hne, _, runLogStormSimulation_trace env, (storm_error_logs env hsched).1, ?_⟩
  intro msg hmem
  obtain ⟨s, message, hs, hf, hmsg⟩ := (storm_error_logs env hsched).2 msg hmem
  refine ⟨⟨s, message, hs, hf, hmsg⟩, ?_⟩
  rw [hmsg]
  exact fun h => hne s message h.symm

/-- Witness for C4 (amended): a claim on a missing slot document, and a storm in which
the write of `Student_7` is rejected. -/
theorem claim_failure_log_vs_storm_failure_log_witness :
    claimLog (attemptClaim none "Student C" 3 none).2 =
      ("error", "[FAIL] " ++ "Student C" ++ " Failed: Resource Locked | Transaction Aborted") ∧
    ∃ tr, runLogStormSimulation stormSampleEnv false = some tr ∧
      StormEvent.log "error" ("[ERR] " ++ "Student_7" ++ ": Write Failed (" ++ "unavailable"
        ++ ")") ∈ tr := by
  obtain ⟨hlog, _, tr, htr, hfailed, _⟩ :=
    claim_failure_log_vs_storm_failure_log none "Student C" 3 none stormSampleEnv
      (by decide) (fun l => List.reverse_perm l)
  exact ⟨hlog, tr, htr, hfailed "Student_7" (by decide) "unavailable" (by decide)⟩

/-! ## Route guards -/

/-- C5: `PublicRoute` renders its child exactly when `currentUser` is null, and for a
signed-in user redirects to `/teacher-dashboard` when the email is
`teacher@system.local` and to `/` for every other email; `PrivateRoute` renders its
child exactly when `currentUser` is non-null and redirects to `/login` otherwise. -/
theorem route_guards {α : Type} (currentUser : Option User) (child : α) :
    (PublicRoute currentUser child = .children child ↔ currentUser = none) ∧
    (∀ user, currentUser = some user →
      PublicRoute currentUser child =
        if user.email = .str "teacher@system.local" then .navigate "/teacher-dashboard"
        else .navigate "/") ∧
    (PrivateRoute currentUser child = .children child ↔ currentUser ≠ none) ∧
    (currentUser = none → PrivateRoute currentUser child = .navigate "/login") := by
  cases currentUser with
  | none => simp [PublicRoute, PrivateRoute]
  | some u =>
    refine ⟨?_, ?_, ?_, ?_⟩
    · by_cases h : u.email = .str TEACHER_EMAIL <;> simp [PublicRoute, h]
    · intro user hu
      cases hu
      rfl
    · simp [PrivateRoute]
    · intro h; cases h

/-- Witness for C5: the teacher account, a student account, and nobody signed in. -/
theorem route_guards_witness :
    PublicRoute (some { uid := "t", email := .str "teacher@system.local" }) Page.Login
      = .navigate "/teacher-dashboard" ∧
    PublicRoute (some { uid := "s", email := .str "alice@school.edu" }) Page.Login
      = .navigate "/" ∧
    PrivateRoute (none : Option User) Page.Workspace = .navigate "/login" :=
  ⟨(route_guards (some { uid := "t", email := .str "teacher@system.local" }) Page.Login).2.1
      _ rfl,
   (route_guards (some { uid := "s", email := .str "alice@school.edu" }) Page.Login).2.1
      _ rfl,
   (route_guards none Page.Workspace).2.2.2 rfl⟩

/-- C7, as stated, fails: a signed-in student, who is not the teacher, is shown
`StudentExperimentSnapshot` on `/snapshot/:id`. -/
theorem snapshot_rendered_for_student :
    isTeacherUser { uid := "s", email := .str "alice@school.edu" } = false ∧
    AppRoutes (some { uid := "s", email := .str "alice@school.edu" }) (.snapshot "p1")
      = some (.children (.StudentExperimentSnapshot "p1")) := by
  decide

/-- C7, amended: the `/snapshot/:id` route renders `StudentExperimentSnapshot` for
exactly the signed-in users, teacher or not, and redirects to `/login` when nobody is
signed in. -/
theorem snapshot_route_authenticated_only (currentUser : Option User) (id : String) :
    (AppRoutes currentUser (.snapshot id) = some (.children (.StudentExperimentSnapshot id))
      ↔ currentUser ≠ none) ∧
    (AppRoutes currentUser (.snapshot id) = some (.navigate "/login")
      ↔ currentUser = none) := by
  cases currentUser <;> simp [AppRoutes, PrivateRoute]

/-! ## Login -/

theorem teacherShadowAuth_cases (auth : AuthService) :
    teacherShadowAuth auth =
        [ .login shadowEmail shadowPwd true, .navigate "/teacher-dashboard" ] ∨
    teacherShadowAuth auth =
        [ .login shadowEmail shadowPwd false, .signup shadowEmail shadowPwd true,
          .navigate "/teacher-dashboard" ] ∨
    teacherShadowAuth auth =
        [ .login shadowEmail shadowPwd false, .signup shadowEmail shadowPwd false,
          .consoleError "Teacher Shadow Auth failed", .setLoading false,
          .setError "教师端系统认证失败，请联系管理员" ] ∨
    teacherShadowAuth auth =
        [ .login shadowEmail shadowPwd false,
          .consoleError "Teacher Shadow Auth failed", .setLoading false,
          .setError "教师端系统认证失败，请联系管理员" ] := by
  unfold teacherShadowAuth
  cases auth.login shadowEmail shadowPwd with
  | ok _ => exact Or.inl rfl
  | error loginErr =>
    by_cases hc : loginErr.code = .str "auth/user-not-found"
        ∨ loginErr.code = .str "auth/invalid-credential"
    · cases hs : auth.signup shadowEmail shadowPwd with
      | ok _ => simp [hc, hs]
      | error _ => simp [hc, hs]
    · simp [hc]

/-- C6: in `Login.handleSubmit` with role `teacher`, a call to the authentication
backend is made exactly when the entered email is `admin` and the entered password is
`admin123456`; every such call carries the fixed shadow credentials, which are not the
entered ones; every navigation goes to `/teacher-dashboard` and comes after a call that
succeeded; with any other entered credentials there is neither a call nor a
navigation.  Success is the answer of the backend: a call is recorded as successful
exactly when `login` (or `signup`) resolved, `signup` is only tried after `login` was
rejected with `auth/user-not-found` or `auth/invalid-credential`, and a navigation
happens exactly when the credentials are the hardcoded ones and either `login`
resolved or it was rejected with one of these two codes and `signup` resolved. -/
theorem teacher_login_gate (auth : AuthService) (email password : String) (isLogin : Bool) :
    ((∃ e ∈ handleSubmit auth "teacher" email password isLogin, e.isAuthCall = true)
      ↔ (email = "admin" ∧ password = "admin123456")) ∧
    (∀ e ∈ handleSubmit auth "teacher" email password isLogin, e.isAuthCall = true →
      e.credentials = some ("teacher@system.local", "teacher_secure_access_key_2024") ∧
      e.credentials ≠ some (email, password)) ∧
    (∀ pre post path,
      handleSubmit auth "teacher" email password isLogin
        = pre ++ LoginEffect.navigate path :: post →
      path = "/teacher-dashboard" ∧
      ∃ e ∈ pre, e.isAuthSuccess = true ∧
        e.credentials = some ("teacher@system.local", "teacher_secure_access_key_2024")) ∧
    (¬ (email = "admin" ∧ password = "admin123456") →
      ∀ e ∈ handleSubmit auth "teacher" email password isLogin,
        e.isAuthCall = false ∧ e.isNavigate = false) ∧
    (∀ e p ok, LoginEffect.login e p ok ∈ handleSubmit auth "teacher" email password isLogin →
      (ok = true ↔ auth.login e p = .ok ())) ∧
    (∀ e p ok, LoginEffect.signup e p ok ∈ handleSubmit auth "teacher" email password isLogin →
      (ok = true ↔ auth.signup e p = .ok ()) ∧
      ∃ err, auth.login "teacher@system.local" "teacher_secure_access_key_2024" = .error err ∧
        (err.code = .str "auth/user-not-found" ∨ err.code = .str "auth/invalid-credential")) ∧
    ((∃ path, LoginEffect.navigate path ∈ handleSubmit auth "teacher" email password isLogin)
      ↔ (email = "admin" ∧ password = "admin123456" ∧
          (auth.login "teacher@system.local" "teacher_secure_access_key_2024" = .ok () ∨
            (∃ err,
              auth.login "teacher@system.local" "teacher_secure_access_key_2024" = .error err ∧
              (err.code = .str "auth/user-not-found"
                ∨ err.code = .str "auth/invalid-credential")) ∧
            auth.signup "teacher@system.local" "teacher_secure_access_key_2024" = .ok ()))) := by
  by_cases hcred : email = "admin" ∧ password = "admin123456"
  · obtain ⟨he, hp⟩ := hcred
    subst he hp
    have hrun : handleSubmit auth "teacher" "admin" "admin123456" isLogin =
        [ .preventDefault, .setError "", .setLoading true ] ++ teacherShadowAuth auth := by
      simp [handleSubmit]
    rw [hrun]
    unfold teacherShadowAuth
    simp only [shadowEmail, shadowPwd]
    cases hl : auth.login "teacher@system.local" "teacher_secure_access_key_2024" with
    | ok u =>
      refine ⟨?_, ?_, ?_, ?_, ?_, ?_, ?_⟩
      · simp [LoginEffect.isAuthCall]
      · simp [LoginEffect.isAuthCall, LoginEffect.credentials]
      · intro pre post path hsplit
        simp [List.cons_eq_append_iff] at hsplit
        obtain ⟨_, rfl, _, rfl, _, rfl, _, rfl, rfl, rfl, rfl⟩ := hsplit
        simp [LoginEffect.isAuthSuccess, LoginEffect.credentials]
      · simp
      · intro e p ok hmem
        simp at hmem
        obtain ⟨rfl, rfl, rfl⟩ := hmem
        simp [hl]
      · intro e p ok hmem
        simp at hmem
      · simp
    | error err =>
      by_cases hc : err.code = .str "auth/user-not-found"
          ∨ err.code = .str "auth/invalid-credential"
      · cases hs : auth.signup "teacher@system.local" "teacher_secure_access_key_2024" with
        | ok u =>
          simp only [hc, if_true]
          refine ⟨?_, ?_, ?_, ?_, ?_, ?_, ?_⟩
          · simp [LoginEffect.isAuthCall]
          · simp [LoginEffect.isAuthCall, LoginEffect.credentials]
          · intro pre post path hsplit
            simp [List.cons_eq_append_iff] at hsplit
            obtain ⟨_, rfl, _, rfl, _, rfl, _, rfl, _, rfl, rfl, rfl, rfl⟩ := hsplit
            simp [LoginEffect.isAuthSuccess, LoginEffect.credentials]
          · simp
          · intro e p ok hmem
            simp at hmem
            obtain ⟨rfl, rfl, rfl⟩ := hmem
            simp [hl]
          · intro e p ok hmem
            simp at hmem
            obtain ⟨rfl, rfl, rfl⟩ := hmem
            exact ⟨by simp [hs], err, rfl, hc⟩
          · simp [hc]
        | error err2 =>
          simp only [hc, if_true]
          refine ⟨?_, ?_, ?_, ?_, ?_, ?_, ?_⟩
          · simp [LoginEffect.isAuthCall]
          · simp [LoginEffect.isAuthCall, LoginEffect.credentials]
          · intro pre post path hsplit
            simp [List.cons_eq_append_iff] at hsplit
          · simp
          · intro e p ok hmem
            simp at hmem
            obtain ⟨rfl, rfl, rfl⟩ := hmem
            simp [hl]
          · intro e p ok hmem
            simp at hmem
            obtain ⟨rfl, rfl, rfl⟩ := hmem
            exact ⟨by simp [hs], err, rfl, hc⟩
          · simp
      · simp only [hc, if_false]
        refine ⟨?_, ?_, ?_, ?_, ?_, ?_, ?_⟩
        · simp [LoginEffect.isAuthCall]
        · simp [LoginEffect.isAuthCall, LoginEffect.credentials]
        · intro pre post path hsplit
          simp [List.cons_eq_append_iff] at hsplit
        · simp
        · intro e p ok hmem
          simp at hmem
          obtain ⟨rfl, rfl, rfl⟩ := hmem
          simp [hl]
        · intro e p ok hmem
          simp at hmem
        · simp [hc]
  · have hrun : handleSubmit auth "teacher" email password isLogin =
        [ .preventDefault, .setError "", .setLoading true,
          .consoleLog "Admin auth failed", .setLoading false ] := by
      simp [handleSubmit, hcred]
    rw [hrun]
    refine ⟨?_, ?_, ?_, ?_, ?_, ?_, ?_⟩
    · simp [LoginEffect.isAuthCall, hcred]
    · simp [LoginEffect.isAuthCall]
    · intro pre post path hsplit
      simp [List.cons_eq_append_iff] at hsplit
    · intro _
      simp [LoginEffect.isAuthCall, LoginEffect.isNavigate]
    · intro e p ok hmem
      simp at hmem
    · intro e p ok hmem
      simp at hmem
    · simp
      intro h1 h2
      exact absurd ⟨h1, h2⟩ hcred

/-- Witness for C6: wrong teacher credentials reach neither the backend nor a page; the
right ones lead to the dashboard when the backend accepts the shadow login, and to no
page when it rejects it for another reason than a missing account. -/
theorem teacher_login_gate_witness :
    (∀ e ∈ handleSubmit
        { login := fun _ _ => .ok (), signup := fun _ _ => .ok () }
        "teacher" "admin" "letmein" true,
      e.isAuthCall = false ∧ e.isNavigate = false) ∧
    (∃ path, LoginEffect.navigate path ∈ handleSubmit
        { login := fun _ _ => .ok (), signup := fun _ _ => .ok () }
        "teacher" "admin" "admin123456" true) ∧
    ¬ (∃ path, LoginEffect.navigate path ∈ handleSubmit
        { login := fun _ _ => .error { code := .str "auth/network-request-failed" },
          signup := fun _ _ => .ok () }
        "teacher" "admin" "admin123456" true) :=
  ⟨(teacher_login_gate { login := fun _ _ => .ok (), signup := fun _ _ => .ok () }
      "admin" "letmein" true).2.2.2.1 (by decide),
   (teacher_login_gate { login := fun _ _ => .ok (), signup := fun _ _ => .ok () }
      "admin" "admin123456" true).2.2.2.2.2.2.mpr ⟨rfl, rfl, Or.inl rfl⟩,
   fun h => by
     have h2 := (teacher_login_gate
       { login := fun _ _ => .error { code := .str "auth/network-request-failed" },
         signup := fun _ _ => .ok () }
       "admin" "admin123456" true).2.2.2.2.2.2.mp h
     simp at h2⟩

/-! ## `ExperimentDetail.handleRun` -/

theorem handleRun_update_failed (env : RunEnv) (id : String) (st : DetailState)
    (store : ProjectStore) (e : String)
    (h : updateDoc env.updateFault (fun d => { d with latest_code := .str st.code }) store
      = .error e) :
    (handleRun env id st store).effects =
      [ .setIsRunning true, .updateDoc "projects" id st.code false ] ∧
    (handleRun env id st store).store = store := by
  simp [handleRun, h]

theorem handleRun_update_ok (env : RunEnv) (id : String) (st : DetailState)
    (store store1 : ProjectStore)
    (h : updateDoc env.updateFault (fun d => { d with latest_code := .str st.code }) store
      = .ok store1) :
    (handleRun env id st store).store = store1 ∧
    (handleRun env id st store).effects =
      [ .setIsRunning true, .updateDoc "projects" id st.code true,
        .fetch "http://localhost:8000/run" "POST" { project_id := id, code := st.code } ]
      ++ (if env.fetch { project_id := id, code := st.code } = .response true then []
          else runFallback id st env) := by
  cases hf : env.fetch { project_id := id, code := st.code } with
  | threw m => simp [handleRun, h, hf]
  | response ok => cases ok <;> simp [handleRun, h, hf]

theorem updateDoc_ok_iff (fault : Option String) (fields : ProjectDoc → ProjectDoc)
    (store store1 : ProjectStore) :
    updateDoc fault fields store = .ok store1 ↔
      fault = none ∧ ∃ d, store = some d ∧ store1 = some (fields d) := by
  cases fault <;> cases store <;> simp [updateDoc, eq_comm]

/-- C8: in `handleRun`, once the request to `/run` has been sent: if it throws or the
response is not ok, exactly one timer is registered, of 2000 ms, whose callback adds to
`experiment_results` one fabricated record with `experimentId` equal to the project id;
if the response is ok, no record is added or scheduled. -/
theorem handleRun_fallback (env : RunEnv) (id : String) (st : DetailState)
    (store : ProjectStore)
    (hsent : ∃ e ∈ (handleRun env id st store).effects, e.isFetch = true) :
    (env.fetch { project_id := id, code := st.code } ≠ .response true →
      ∃ r, scheduledRecords (handleRun env id st store).effects
          = [(2000, "experiment_results", r)] ∧
        r.experimentId = id) ∧
    (env.fetch { project_id := id, code := st.code } = .response true →
      scheduledRecords (handleRun env id st store).effects = []) := by
  cases hu : updateDoc env.updateFault (fun d => { d with latest_code := .str st.code }) store with
  | error e =>
    obtain ⟨x, hx, hfx⟩ := hsent
    rw [(handleRun_update_failed env id st store e hu).1] at hx
    simp at hx
    rcases hx with rfl | rfl <;> simp [RunEffect.isFetch] at hfx
  | ok store1 =>
    rw [(handleRun_update_ok env id st store store1 hu).2]
    constructor
    · intro hbad
      simp [hbad, scheduledRecords, runFallback]
    · intro hok
      simp [hok, scheduledRecords]

/-- Witness for C8: the script-execution service is down. -/
theorem handleRun_fallback_witness :
    (∃ r, scheduledRecords (handleRun
          { updateFault := none, fetch := fun _ => .threw "Failed to fetch", accuracy := "0.9" }
          "p1" sampleDetailState (some sampleProject)).effects
          = [(2000, "experiment_results", r)] ∧
        r.experimentId = "p1") :=
  (handleRun_fallback
    { updateFault := none, fetch := fun _ => .threw "Failed to fetch", accuracy := "0.9" }
    "p1" sampleDetailState (some sampleProject)
    ⟨.fetch "http://localhost:8000/run" "POST" { project_id := "p1", code := "print(1)" },
      by decide, rfl⟩).1 (by decide)

/-- C9: `handleRun` stores the editor's text as the project's `latest_code` before it
sends `POST /run`; the request body carries the route's project id and that same text;
when storing fails no request is sent, and when storing succeeds the request is sent. -/
theorem handleRun_saves_then_posts (env : RunEnv) (id : String) (st : DetailState)
    (store : ProjectStore) :
    (∀ pre post url method body,
      (handleRun env id st store).effects = pre ++ RunEffect.fetch url method body :: post →
      RunEffect.updateDoc "projects" id st.code true ∈ pre ∧
      (handleRun env id st store).store.map (fun d => d.latest_code) = some (.str st.code) ∧
      url = "http://localhost:8000/run" ∧ method = "POST" ∧
      body = { project_id := id, code := st.code }) ∧
    ((env.updateFault ≠ none ∨ store = none) →
      (∀ e ∈ (handleRun env id st store).effects, e.isFetch = false) ∧
      (handleRun env id st store).store = store ∧
      (handleRun env id st store).rejected = true) ∧
    (env.updateFault = none → store ≠ none →
      ∃ e ∈ (handleRun env id st store).effects, e.isFetch = true) := by
  cases hu : updateDoc env.updateFault (fun d => { d with latest_code := .str st.code }) store with
  | error e =>
    have hne : env.updateFault ≠ none ∨ store = none := by
      by_contra hcon
      push_neg at hcon
      obtain ⟨hf, hs⟩ := hcon
      obtain ⟨d, hd⟩ := Option.ne_none_iff_exists'.mp hs
      simp [updateDoc, hf, hd] at hu
    have heff := (handleRun_update_failed env id st store e hu).1
    refine ⟨?_, ?_, ?_⟩
    · intro pre post url method body hsplit
      rw [heff] at hsplit
      simp [List.cons_eq_append_iff] at hsplit
    · intro _
      refine ⟨?_, (handleRun_update_failed env id st store e hu).2, by simp [handleRun, hu]⟩
      rw [heff]
      simp [RunEffect.isFetch]
    · intro hf hs
      rcases hne with h | h
      · exact absurd hf h
      · exact absurd h hs
  | ok store1 =>
    obtain ⟨hf, d, hd, hs1⟩ := (updateDoc_ok_iff _ _ _ _).mp hu
    obtain ⟨hst, heff⟩ := handleRun_update_ok env id st store store1 hu
    refine ⟨?_, ?_, ?_⟩
    · intro pre post url method body hsplit
      rw [heff] at hsplit
      rw [hst, hs1]
      by_cases hok : env.fetch { project_id := id, code := st.code } = .response true
      · simp [hok, List.cons_eq_append_iff] at hsplit
        obtain ⟨_, rfl, _, rfl, rfl, ⟨rfl, rfl, rfl⟩, rfl⟩ := hsplit
        simp
      · simp [hok, List.cons_eq_append_iff, runFallback] at hsplit
        obtain ⟨_, rfl, _, rfl, rfl, ⟨rfl, rfl, rfl⟩, rfl⟩ := hsplit
        simp
    · rintro (h | h)
      · exact absurd hf h
      · rw [hd] at h; cases h
    · intro _ _
      rw [heff]
      exact ⟨.fetch "http://localhost:8000/run" "POST" { project_id := id, code := st.code },
        by simp, rfl⟩

/-- Witness for C9: the project document is missing, so storing the code fails. -/
theorem handleRun_saves_then_posts_witness :
    (∀ e ∈ (handleRun
        { updateFault := none, fetch := fun _ => .response true, accuracy := "0.9" }
        "p1" sampleDetailState none).effects, e.isFetch = false) ∧
    (handleRun
        { updateFault := none, fetch := fun _ => .response true, accuracy := "0.9" }
        "p1" sampleDetailState none).store = none ∧
    (handleRun
        { updateFault := none, fetch := fun _ => .response true, accuracy := "0.9" }
        "p1" sampleDetailState none).rejected = true :=
  (handleRun_saves_then_posts
    { updateFault := none, fetch := fun _ => .response true, accuracy := "0.9" }
    "p1" sampleDetailState none).2.1 (Or.inr rfl)

/-! ## `ExperimentDetail.handleSubmitProject` -/

theorem handleSubmitProject_latest_code (number : String → JsVal) (fault : Option String)
    (serverNow localNow : Int) (id : String) (st : DetailState) (store : ProjectStore) :
    (handleSubmitProject number fault serverNow localNow id st store).store.map
        (fun d => d.latest_code) = store.map (fun d => d.latest_code) := by
  unfold handleSubmitProject
  cases st.project with
  | none => rfl
  | some p =>
    by_cases hid : id = ""
    · simp [hid]
    · cases fault <;> cases store <;> simp [hid, updateDoc]

/-- C10 fails on the code: a student whose last run stored `print(1)` edits the code to
`print(2)` and submits; the submission succeeds and marks the project `submitted`, yet
the stored `latest_code`, and with it the code the snapshot view shows the teacher, is
still `print(1)`. -/
theorem submit_leaves_latest_code_stale :
    (onValueChange sampleDetailState "print(2)").code = "print(2)" ∧
    (handleSubmitProject (fun _ => .num 90) none 100 100 "p1"
        (onValueChange sampleDetailState "print(2)") (some sampleProject)).succeeded = true ∧
    (handleSubmitProject (fun _ => .num 90) none 100 100 "p1"
        (onValueChange sampleDetailState "print(2)") (some sampleProject)).store.map
          (fun d => (d.status, d.latest_code, snapshotCode d))
      = some (.str "submitted", .str "print(1)", .str "print(1)") := by
  decide

/-! ## The snapshot view -/

theorem Snapshot.editorEvents_eq (st : SnapshotState) (texts : List String) :
    Snapshot.editorEvents st texts = (st, []) := by
  unfold Snapshot.editorEvents
  induction texts with
  | nil => rfl
  | cons t texts ih => simp [List.foldl_cons, Snapshot.onValueChange]

/-- C11: in the snapshot view the displayed code comes from loading the project only.
It is the project's `latest_code` when that is a non-empty string and the placeholder
`# No code found` when it is the empty string or missing; and no run of editor change
events alters it or causes any effect, in particular no write to the store. -/
theorem snapshot_code_read_only (data : ProjectDoc) (st : SnapshotState)
    (texts : List String) :
    (∀ s, s ≠ "" → data.latest_code = .str s →
      Snapshot.displayedCode (Snapshot.fetchProject (.ok (some data)) st).1
        = some (.str s)) ∧
    ((data.latest_code = .str "" ∨ data.latest_code = .undefined
        ∨ data.latest_code = .null) →
      Snapshot.displayedCode (Snapshot.fetchProject (.ok (some data)) st).1
        = some (.str "# No code found")) ∧
    (Snapshot.fetchProject (.ok (some data)) st).2 = [] ∧
    Snapshot.displayedCode
        (Snapshot.editorEvents (Snapshot.fetchProject (.ok (some data)) st).1 texts).1
      = Snapshot.displayedCode (Snapshot.fetchProject (.ok (some data)) st).1 ∧
    (Snapshot.editorEvents (Snapshot.fetchProject (.ok (some data)) st).1 texts).2 = [] := by
  refine ⟨?_, ?_, rfl, ?_, ?_⟩
  · intro s hs hcode
    simp [Snapshot.fetchProject, Snapshot.displayedCode, snapshotCode, JsVal.or, hcode,
      JsVal.truthy, hs]
  · rintro (h | h | h) <;>
      simp [Snapshot.fetchProject, Snapshot.displayedCode, snapshotCode, JsVal.or, h,
        JsVal.truthy]
  · rw [Snapshot.editorEvents_eq]
  · rw [Snapshot.editorEvents_eq]

/-- Witness for C11: a project whose last run stored `print(1)`, and one never run. -/
theorem snapshot_code_read_only_witness :
    Snapshot.displayedCode
        (Snapshot.fetchProject (.ok (some sampleProject)) SnapshotState.initial).1
      = some (.str "print(1)") ∧
    Snapshot.displayedCode
        (Snapshot.fetchProject
          (.ok (some { sampleProject with latest_code := .undefined }))
          SnapshotState.initial).1
      = some (.str "# No code found") :=
  ⟨(snapshot_code_read_only sampleProject SnapshotState.initial []).1 "print(1)"
      (by decide) rfl,
   (snapshot_code_read_only { sampleProject with latest_code := .undefined }
      SnapshotState.initial []).2.1 (Or.inr (Or.inl rfl))⟩

/-! ## `ExperimentDetail`: a submitted experiment -/

theorem dispatch_submitted (id : String) (w : DetailWorld) (ev : DetailEvent)
    (h : isSubmitted w.state = true) : dispatch id w ev = w := by
  cases ev with
  | editorChange text => simp [dispatch, onValueChange, h]
  | runClick env => simp [dispatch, runDisabled, h]

theorem foldl_dispatch_submitted (id : String) (events : List DetailEvent) (w : DetailWorld)
    (h : isSubmitted w.state = true) : events.foldl (dispatch id) w = w := by
  induction events with
  | nil => rfl
  | cons ev events ih => rw [List.foldl_cons, dispatch_submitted id w ev h, ih]

theorem isSubmitted_of_status (st : DetailState) (p : ProjectDoc) (hp : st.project = some p)
    (hs : p.status = .str "submitted" ∨ p.status = .str "graded") :
    isSubmitted st = true := by
  rcases hs with h | h <;> simp [isSubmitted, hp, h]

/-- C12: whenever the local project's status is `submitted` or `graded`, every editor
change event leaves the code state unchanged and the run button is disabled; after a
successful `handleSubmitProject` the local project status is `submitted`, and from
then on no sequence of editor and run events changes the code, the stored
`latest_code`, or raises any effect (no write, no request). -/
theorem submitted_is_frozen (number : String → JsVal) (fault : Option String)
    (serverNow localNow : Int) (id : String) (st : DetailState) (store : ProjectStore) :
    (∀ (s : DetailState) (p : ProjectDoc) (text : String), s.project = some p →
      (p.status = .str "submitted" ∨ p.status = .str "graded") →
      onValueChange s text = s ∧ runDisabled s = true) ∧
    ((handleSubmitProject number fault serverNow localNow id st store).succeeded = true →
      (handleSubmitProject number fault serverNow localNow id st store).state.project.map
          (fun p => p.status) = some (.str "submitted") ∧
      ∀ events : List DetailEvent,
        (events.foldl (dispatch id)
          { state := (handleSubmitProject number fault serverNow localNow id st store).state,
            store := (handleSubmitProject number fault serverNow localNow id st store).store,
            effects := [] }).state.code = st.code ∧
        (events.foldl (dispatch id)
          { state := (handleSubmitProject number fault serverNow localNow id st store).state,
            store := (handleSubmitProject number fault serverNow localNow id st store).store,
            effects := [] }).store
          = (handleSubmitProject number fault serverNow localNow id st store).store ∧
        (events.foldl (dispatch id)
          { state := (handleSubmitProject number fault serverNow localNow id st store).state,
            store := (handleSubmitProject number fault serverNow localNow id st store).store,
            effects := [] }).effects = []) := by
  constructor
  · intro s p text hp hs
    have h := isSubmitted_of_status s p hp hs
    exact ⟨by simp [onValueChange, h], by simp [runDisabled, h]⟩
  · intro hok
    have hstate : ∃ p, st.project = some p ∧
        (handleSubmitProject number fault serverNow localNow id st store).state =
          { st with showSubmitModal := false,
                    project := some { p with status := .str "submitted",
                                             selfScore := number st.selfScore,
                                             submittedAt := .num localNow } } := by
      unfold handleSubmitProject at hok ⊢
      cases hp : st.project with
      | none => simp [hp] at hok
      | some p =>
        refine ⟨p, rfl, ?_⟩
        by_cases hid : id = ""
        · simp [hp, hid] at hok
        · cases fault <;> cases store <;> simp [hp, hid, updateDoc] at hok ⊢
    obtain ⟨p, _, hst⟩ := hstate
    have hsub : isSubmitted
        (handleSubmitProject number fault serverNow localNow id st store).state = true := by
      rw [hst]; simp [isSubmitted]
    refine ⟨by rw [hst]; rfl, ?_⟩
    intro events
    rw [foldl_dispatch_submitted id events _ hsub]
    exact ⟨by rw [hst], rfl, rfl⟩

/-- Witness for C12: after a successful submission, an editor change and a click on
the run button leave the code as it was. -/
theorem submitted_is_frozen_witness :
    (handleSubmitProject jsNumber none 100 100 "p1" sampleDetailState
        (some sampleProject)).succeeded = true ∧
    ([DetailEvent.editorChange "print(3)",
      DetailEvent.runClick
        { updateFault := none, fetch := fun _ => .response true, accuracy := "0.9" }].foldl
      (dispatch "p1")
      { state := (handleSubmitProject jsNumber none 100 100 "p1" sampleDetailState
          (some sampleProject)).state,
        store := (handleSubmitProject jsNumber none 100 100 "p1" sampleDetailState
          (some sampleProject)).store,
        effects := [] }).state.code = "print(1)" :=
  ⟨by decide,
   (((submitted_is_frozen jsNumber none 100 100 "p1" sampleDetailState
      (some sampleProject)).2 (by decide)).2 _).1⟩

/-- C13 fails on the code: with the text `150` in the self-score field the confirm
button is enabled, `handleSubmitProject` succeeds, and the `selfScore` written to the
project is 150, which is not between 0 and 100. -/
theorem self_score_not_range_checked :
    submitDisabled { sampleDetailState with selfScore := "150" } = false ∧
    (handleSubmitProject jsNumber none 100 100 "p1"
        { sampleDetailState with selfScore := "150" } (some sampleProject)).succeeded = true ∧
    (handleSubmitProject jsNumber none 100 100 "p1"
        { sampleDetailState with selfScore := "150" } (some sampleProject)).store.map
          (fun d => d.selfScore) = some (.num 150) ∧
    ¬ ((0 : Int) ≤ 150 ∧ (150 : Int) ≤ 100) := by
  decide

/-! ## Rejections that leave a handler -/

/-- C15 fails on the code: three of the listed handlers let a rejection escape.  In
`handleRun` the `updateDoc` that saves the code is awaited outside the `try` block,
and the two `handleDelete` handlers await `deleteDoc` with no `try` at all, so a
rejection of the store rejects the handler's own promise. -/
theorem rejections_escape_handlers :
    (handleRun
        { updateFault := some "unavailable", fetch := fun _ => .response true,
          accuracy := "0.9" }
        "p1" sampleDetailState (some sampleProject)).rejected = true ∧
    (Snapshot.handleDelete true (some "permission-denied") "p1").2 = true ∧
    (AssignmentList.handleDelete true (some "permission-denied") "a1").2 = true := by
  decide

/-! ## `ExperimentDetail.handleFileUpload` -/

/-- C14, as stated, fails: uploading a file also writes the parsed preview to the
document store, in the collection `projects/<id>/data_records`. -/
theorem file_upload_writes_preview_to_store :
    handleFileUpload (fun _ => [[("x", "1")], [("x", "2")]]) none "p1"
        (some { name := "data.csv", content := "x\n1\n2" }) =
      [ .setCsvData [[("x", "1")], [("x", "2")]],
        .addDoc "projects/p1/data_records" "data.csv" [[("x", "1")], [("x", "2")]] true ] ∧
    ∃ e ∈ handleFileUpload (fun _ => [[("x", "1")], [("x", "2")]]) none "p1"
        (some { name := "data.csv", content := "x\n1\n2" }), e.isStoreWrite = true := by
  decide

/-- C14, amended: for every uploaded file `handleFileUpload` sets the local preview
`csvData` to the first rows of the parsed file, at most ten, and makes exactly one
write to the document store, adding the file name and that same preview to
`projects/<id>/data_records`; it sends no request to an external service, and
without a file it does nothing. -/
theorem file_upload_preview_and_store (parse : String → List CsvRow) (fault : Option String)
    (id : String) (file : Option UploadedFile) :
    (∀ f, file = some f →
      (handleFileUpload parse fault id file).head?
        = some (.setCsvData ((parse f.content).take 10)) ∧
      ((parse f.content).take 10).length ≤ 10 ∧
      (handleFileUpload parse fault id file).filter (fun e => e.isStoreWrite) =
        [ .addDoc ("projects/" ++ id ++ "/data_records") f.name
            ((parse f.content).take 10) fault.isNone ]) ∧
    (∀ e ∈ handleFileUpload parse fault id file, e.isRequest = false) ∧
    (file = none → handleFileUpload parse fault id file = []) := by
  cases file with
  | none => simp [handleFileUpload]
  | some f =>
    cases fault <;>
      simp [handleFileUpload, UploadEffect.isStoreWrite, UploadEffect.isRequest,
        List.length_take]

/-- Witness for C14 (amended): a file of two rows. -/
theorem file_upload_preview_and_store_witness :
    (handleFileUpload (fun _ => [[("x", "1")], [("x", "2")]]) none "p1"
        (some { name := "data.csv", content := "x\n1\n2" })).filter
        (fun e => e.isStoreWrite) =
      [ .addDoc ("projects/" ++ "p1" ++ "/data_records") "data.csv"
          (([[("x", "1")], [("x", "2")]] : List CsvRow).take 10) true ] :=
  ((file_upload_preview_and_store (fun _ => [[("x", "1")], [("x", "2")]]) none "p1"
    (some { name := "data.csv", content := "x\n1\n2" })).1 _ rfl).2.2

/-! ## `Register.handleSubmit` -/

/-- C16: for every email, password and confirmation, `signup` is called exactly when
the password equals the confirmation, and then with exactly that email and password;
when they differ an error message is set and there is neither a `signup` nor a
navigation; and every navigation goes to `/` and follows a `signup` that succeeded.
Success is the answer of the service: the call is recorded as successful exactly when
`signup` resolved, a navigation happens exactly when the password equals the
confirmation and `signup` resolved, and when `signup` rejects the error message is
shown instead. -/
theorem register_confirms_password (signup : String → String → Except String Unit)
    (email password confirmPassword : String) :
    ((∃ e ∈ Register.handleSubmit signup email password confirmPassword, e.isSignup = true)
      ↔ password = confirmPassword) ∧
    (∀ e ∈ Register.handleSubmit signup email password confirmPassword, e.isSignup = true →
      ∃ ok, e = .signup email password ok) ∧
    (password ≠ confirmPassword →
      RegisterEffect.setError "两次输入的密码不一致"
        ∈ Register.handleSubmit signup email password confirmPassword ∧
      ∀ e ∈ Register.handleSubmit signup email password confirmPassword,
        e.isSignup = false ∧ e.isNavigate = false) ∧
    (∀ pre post path,
      Register.handleSubmit signup email password confirmPassword
        = pre ++ RegisterEffect.navigate path :: post →
      path = "/" ∧ RegisterEffect.signup email password true ∈ pre) ∧
    (∀ e p ok,
      RegisterEffect.signup e p ok ∈ Register.handleSubmit signup email password confirmPassword →
      (ok = true ↔ signup e p = .ok ())) ∧
    ((∃ path, RegisterEffect.navigate path
        ∈ Register.handleSubmit signup email password confirmPassword)
      ↔ (password = confirmPassword ∧ signup email password = .ok ())) ∧
    (∀ message, password = confirmPassword → signup email password = .error message →
      RegisterEffect.setError ("注册失败: " ++ message)
        ∈ Register.handleSubmit signup email password confirmPassword) := by
  by_cases hpw : password = confirmPassword
  · subst hpw
    cases hs : signup email password with
    | ok _ =>
      refine ⟨?_, ?_, ?_, ?_, ?_, ?_, ?_⟩
      · simp [Register.handleSubmit, hs, RegisterEffect.isSignup]
      · simp [Register.handleSubmit, hs, RegisterEffect.isSignup]
      · intro h; exact absurd rfl h
      · intro pre post path hsplit
        simp [Register.handleSubmit, hs, List.cons_eq_append_iff] at hsplit
        obtain ⟨_, rfl, _, rfl, _, rfl, _, rfl, rfl, rfl, rfl⟩ := hsplit
        simp
      · intro e p ok hmem
        simp [Register.handleSubmit, hs] at hmem
        obtain ⟨rfl, rfl, rfl⟩ := hmem
        simp [hs]
      · simp [Register.handleSubmit, hs]
      · intro message _ hcon
        cases hcon
    | error m =>
      refine ⟨?_, ?_, ?_, ?_, ?_, ?_, ?_⟩
      · simp [Register.handleSubmit, hs, RegisterEffect.isSignup]
      · simp [Register.handleSubmit, hs, RegisterEffect.isSignup]
      · intro h; exact absurd rfl h
      · intro pre post path hsplit
        simp [Register.handleSubmit, hs, List.cons_eq_append_iff] at hsplit
      · intro e p ok hmem
        simp [Register.handleSubmit, hs] at hmem
        obtain ⟨rfl, rfl, rfl⟩ := hmem
        simp [hs]
      · simp [Register.handleSubmit, hs]
      · intro message _ hcon
        cases hcon
        simp [Register.handleSubmit, hs]
  · refine ⟨?_, ?_, ?_, ?_, ?_, ?_, ?_⟩
    · simp [Register.handleSubmit, hpw, RegisterEffect.isSignup]
    · simp [Register.handleSubmit, hpw, RegisterEffect.isSignup]
    · intro _
      simp [Register.handleSubmit, hpw, RegisterEffect.isSignup, RegisterEffect.isNavigate]
    · intro pre post path hsplit
      simp [Register.handleSubmit, hpw, List.cons_eq_append_iff] at hsplit
    · intro e p ok hmem
      simp [Register.handleSubmit, hpw] at hmem
    · simp [Register.handleSubmit, hpw]
    · intro message h
      exact absurd h hpw

/-- Witness for C16: a confirmation that differs from the password, and a matching
confirmation with a service that rejects the registration. -/
theorem register_confirms_password_witness :
    (RegisterEffect.setError "两次输入的密码不一致"
        ∈ Register.handleSubmit (fun _ _ => .ok ()) "a@b.c" "secret1" "secret2" ∧
      ∀ e ∈ Register.handleSubmit (fun _ _ => .ok ()) "a@b.c" "secret1" "secret2",
        e.isSignup = false ∧ e.isNavigate = false) ∧
    RegisterEffect.setError ("注册失败: " ++ "email-already-in-use")
      ∈ Register.handleSubmit (fun _ _ => .error "email-already-in-use")
          "a@b.c" "secret1" "secret1" ∧
    ¬ (∃ path, RegisterEffect.navigate path
        ∈ Register.handleSubmit (fun _ _ => .error "email-already-in-use")
            "a@b.c" "secret1" "secret1") :=
  ⟨(register_confirms_password (fun _ _ => .ok ()) "a@b.c" "secret1" "secret2").2.2.1
      (by decide),
   (register_confirms_password (fun _ _ => .error "email-already-in-use")
      "a@b.c" "secret1" "secret1").2.2.2.2.2.2 "email-already-in-use" rfl rfl,
   fun h => by
     have h2 := (register_confirms_password (fun _ _ => .error "email-already-in-use")
       "a@b.c" "secret1" "secret1").2.2.2.2.2.1.mp h
     simp at h2⟩

/-! ## Presence checks in forms -/

theorem jsTrim_eq_empty_iff (s : String) :
    jsTrim s = "" ↔ ∀ c ∈ s.data, jsIsWhiteSpace c = true := by
  have hmk : ∀ l : List Char, (String.mk l = "") ↔ l = [] := by
    intro l
    constructor
    · intro h
      have := congrArg String.data h
      simpa using this
    · intro h
      subst h
      rfl
  unfold jsTrim
  rw [hmk, List.reverse_eq_nil_iff]
  constructor
  · intro h
    by_contra hcon
    push_neg at hcon
    obtain ⟨c, hc, hws⟩ := hcon
    have hne : s.data.dropWhile jsIsWhiteSpace ≠ [] := by
      intro hnil
      rw [List.dropWhile_eq_nil_iff] at hnil
      exact hws (hnil c hc)
    obtain ⟨x, xs, hx⟩ := List.exists_cons_of_ne_nil hne
    have hxp : jsIsWhiteSpace x ≠ true := by
      have := List.head_dropWhile_not jsIsWhiteSpace s.data hne
      simp only [hx, List.head_cons] at this
      simpa using this
    rw [List.dropWhile_eq_nil_iff] at h
    exact hxp (h x (by rw [hx]; simp))
  · intro h
    have h1 : s.data.dropWhile jsIsWhiteSpace = [] := by
      rw [List.dropWhile_eq_nil_iff]
      exact h
    rw [h1]
    rfl

theorem publishWrite_attempts (fault : Option String) (now : Int) (form : PublishForm)
    (finalDataset : String) :
    addDocAttempts "assignments" (publishWrite fault now form finalDataset) =
      [[ ("title", .str form.title), ("description", .str form.description),
         ("dataset", .str finalDataset), ("createdAt", .num now),
         ("status", .str "active") ]] := by
  cases fault <;> simp [publishWrite, addDocAttempts]

/-- C17: when the title is empty or made of white space only, `handlePublish` neither
adds an assignment nor uploads a file and `handleCreateProject` adds no project.  When
the title has a character that is not white space, `handleCreateProject` issues its
one `addDoc` on `projects`, and `handlePublish` goes on to its write path: it issues
its one `addDoc` on `assignments`, preceded by the upload of the custom file when one
is attached, unless that upload fails. -/
theorem forms_check_title_presence (uploadAnswer : UploadAnswer) (fault : Option String)
    (now : Int) (form : PublishForm) (currentUser : User) (newTitle newDesc : String) :
    ((∀ c ∈ form.title.data, jsIsWhiteSpace c = true) →
      ∀ e ∈ handlePublish uploadAnswer fault now form,
        e.isAddDocTo "assignments" = false ∧ e.isUpload = false) ∧
    ((∀ c ∈ newTitle.data, jsIsWhiteSpace c = true) →
      ∀ e ∈ Workspace.handleCreateProject fault now currentUser newTitle newDesc,
        e.isAddDocTo "projects" = false) ∧
    ((∃ c ∈ newTitle.data, jsIsWhiteSpace c = false) →
      addDocAttempts "projects"
          (Workspace.handleCreateProject fault now currentUser newTitle newDesc) =
        [[ ("title", .str newTitle), ("description", .str newDesc),
           ("status", .str "In Progress"), ("ownerId", .str currentUser.uid),
           ("createdAt", .num now) ]]) ∧
    ((∃ c ∈ form.title.data, jsIsWhiteSpace c = false) →
      (∃ e ∈ handlePublish uploadAnswer fault now form,
        e.isAddDocTo "assignments" = true ∨ e.isUpload = true) ∧
      ((form.datasetMode ≠ "custom" ∨ form.customFile = none) →
        addDocAttempts "assignments" (handlePublish uploadAnswer fault now form) =
          [[ ("title", .str form.title), ("description", .str form.description),
             ("dataset", .str form.dataset), ("createdAt", .num now),
             ("status", .str "active") ]]) ∧
      (∀ filename, uploadAnswer = .response true filename →
        form.datasetMode = "custom" → form.customFile ≠ none →
        addDocAttempts "assignments" (handlePublish uploadAnswer fault now form) =
          [[ ("title", .str form.title), ("description", .str form.description),
             ("dataset", .str ("custom:" ++ filename)), ("createdAt", .num now),
             ("status", .str "active") ]])) := by
  refine ⟨?_, ?_, ?_, ?_⟩
  · intro hblank
    have h := (jsTrim_eq_empty_iff form.title).mpr hblank
    simp [handlePublish, h, UiEffect.isAddDocTo, UiEffect.isUpload]
  · intro hblank
    have h := (jsTrim_eq_empty_iff newTitle).mpr hblank
    simp [Workspace.handleCreateProject, h, UiEffect.isAddDocTo]
  · rintro ⟨c, hc, hws⟩
    have h : jsTrim newTitle ≠ "" := by
      intro hcon
      have := (jsTrim_eq_empty_iff newTitle).mp hcon c hc
      rw [hws] at this
      exact absurd this (by decide)
    cases fault <;> simp [Workspace.handleCreateProject, h, addDocAttempts]
  · rintro ⟨c, hc, hws⟩
    have h : jsTrim form.title ≠ "" := by
      intro hcon
      have := (jsTrim_eq_empty_iff form.title).mp hcon c hc
      rw [hws] at this
      exact absurd this (by decide)
    have hattempt : ∀ l : List UiEffect,
        addDocAttempts "assignments"
          ([ UiEffect.preventDefault, .setState "isPublishing" (.bool true) ] ++ l)
        = addDocAttempts "assignments" l := by
      intro l; simp [addDocAttempts]
    have hmem : ∀ ds, ∃ e ∈ publishWrite fault now form ds,
        e.isAddDocTo "assignments" = true := by
      intro ds
      cases fault <;> simp [publishWrite, UiEffect.isAddDocTo]
    refine ⟨?_, ?_, ?_⟩
    · by_cases hmode : form.datasetMode = "custom"
      · cases hfile : form.customFile with
        | none =>
          obtain ⟨e, he, hadd⟩ := hmem form.dataset
          refine ⟨e, ?_, Or.inl hadd⟩
          simp [handlePublish, h, hmode, hfile, he]
        | some file =>
          refine ⟨.upload "http://127.0.0.1:8000/upload_dataset" "POST" file.name, ?_,
            Or.inr rfl⟩
          simp [handlePublish, h, hmode, hfile]
      · obtain ⟨e, he, hadd⟩ := hmem form.dataset
        refine ⟨e, ?_, Or.inl hadd⟩
        simp [handlePublish, h, hmode, he]
    · intro hno
      have hsel : (if form.datasetMode = "custom" then form.customFile else none) = none := by
        rcases hno with hm | hf
        · simp [hm]
        · simp [hf]
      simp only [handlePublish, h, if_false, hsel]
      rw [hattempt, publishWrite_attempts]
    · intro filename hans hmode hfile
      obtain ⟨file, hf⟩ := Option.ne_none_iff_exists'.mp hfile
      simp only [handlePublish, h, if_false, hmode, if_true, hf, hans]
      rw [hattempt]
      have : addDocAttempts "assignments"
          ([ UiEffect.upload "http://127.0.0.1:8000/upload_dataset" "POST" file.name ] ++
            publishWrite fault now form ("custom:" ++ filename))
          = addDocAttempts "assignments"
              (publishWrite fault now form ("custom:" ++ filename)) := by
        simp [addDocAttempts]
      rw [this, publishWrite_attempts]

/-- Witness for C17: a title of blanks, and a real title. -/
theorem forms_check_title_presence_witness :
    (∀ e ∈ Workspace.handleCreateProject none 5 { uid := "u1", email := .str "a@b.c" }
        "   " "notes",
      e.isAddDocTo "projects" = false) ∧
    addDocAttempts "projects"
        (Workspace.handleCreateProject none 5 { uid := "u1", email := .str "a@b.c" }
          "Iris study" "notes") =
      [[ ("title", .str "Iris study"), ("description", .str "notes"),
         ("status", .str "In Progress"), ("ownerId", .str "u1"), ("createdAt", .num 5) ]] :=
  ⟨(forms_check_title_presence (.threw "") none 5
      { title := "", description := "", datasetMode := "builtin", dataset := "Iris",
        customFile := none }
      { uid := "u1", email := .str "a@b.c" } "   " "notes").2.1 (by decide),
   (forms_check_title_presence (.threw "") none 5
      { title := "", description := "", datasetMode := "builtin", dataset := "Iris",
        customFile := none }
      { uid := "u1", email := .str "a@b.c" } "Iris study" "notes").2.2.1
      ⟨'I', by decide, by decide⟩⟩

/-! ## Presence on the teacher monitor -/

/-- C18: the monitor shows a student as `Online` exactly when the `isOnline` flag is
true (truthy; for a boolean flag, equal to `true`), `lastActive` is present, and
`now - lastActive.seconds * 1000 < 120000`; in every other case it shows `Offline`. -/
theorem presence_two_minute_threshold (now : Int) (student : UserDoc) :
    (presenceLabel now student = "Online" ↔
      (student.isOnline.truthy = true ∧
        ∃ seconds, student.lastActive = some seconds ∧ now - seconds * 1000 < 120000)) ∧
    (presenceLabel now student ≠ "Online" → presenceLabel now student = "Offline") ∧
    (∀ b : Bool, student.isOnline = .bool b →
      (student.isOnline.truthy = true ↔ b = true)) := by
  refine ⟨?_, ?_, ?_⟩
  · unfold presenceLabel isActive
    cases hl : student.lastActive with
    | none => simp
    | some seconds =>
      by_cases ht : student.isOnline.truthy = true <;>
        by_cases hd : now - seconds * 1000 < 120000 <;> simp [ht, hd]
  · unfold presenceLabel
    by_cases h : isActive now student = true <;> simp [h]
  · intro b hb
    rw [hb]
    rfl

/-- Witness for C18: a student last seen exactly two minutes ago is shown offline. -/
theorem presence_two_minute_threshold_witness :
    presenceLabel 1120000
        { uid := "u1", email := .str "a@b.c", displayName := .str "Ann", role := .str "student",
          isOnline := .bool true, lastActive := some 1000 } = "Offline" ∧
    presenceLabel 1119999
        { uid := "u1", email := .str "a@b.c", displayName := .str "Ann", role := .str "student",
          isOnline := .bool true, lastActive := some 1000 } = "Online" :=
  ⟨(presence_two_minute_threshold 1120000
      { uid := "u1", email := .str "a@b.c", displayName := .str "Ann", role := .str "student",
        isOnline := .bool true, lastActive := some 1000 }).2.1 (by decide),
   (presence_two_minute_threshold 1119999
      { uid := "u1", email := .str "a@b.c", displayName := .str "Ann", role := .str "student",
        isOnline := .bool true, lastActive := some 1000 }).1.mpr
      ⟨rfl, 1000, rfl, by decide⟩⟩

/-! ## `Workspace.handleStartAssignment` -/

/-- C19: once confirmed, `handleStartAssignment` issues exactly one `addDoc`, on
`projects`, whose title, description and dataset are those of the assignment, whose
`assignmentId` is the assignment's id, whose `ownerId` is the current user's uid and
whose status is `In Progress`; when the store accepts it, exactly that one project is
added; when the confirmation is declined nothing is done and no project is created. -/
theorem start_assignment_creates_one_project (fault : Option String) (now : Int)
    (currentUser : User) (assignment : Assignment) (projects : List Fields) :
    (∃ fields,
      addDocAttempts "projects"
        (Workspace.handleStartAssignment true fault now currentUser assignment) = [fields] ∧
      ((Workspace.handleStartAssignment true fault now currentUser assignment).filter
        (fun e => match e with
          | .addDoc _ _ _ => true
          | _ => false)).length = 1 ∧
      fields.get "title" = assignment.title ∧
      fields.get "description" = assignment.description ∧
      fields.get "dataset" = assignment.dataset ∧
      fields.get "assignmentId" = .str assignment.id ∧
      fields.get "ownerId" = .str currentUser.uid ∧
      fields.get "status" = .str "In Progress" ∧
      (fault = none →
        projectsAfter projects
          (Workspace.handleStartAssignment true fault now currentUser assignment)
          = projects ++ [fields])) ∧
    Workspace.handleStartAssignment false fault now currentUser assignment = [] ∧
    projectsAfter projects
      (Workspace.handleStartAssignment false fault now currentUser assignment) = projects := by
  refine ⟨?_, rfl, by simp [Workspace.handleStartAssignment, projectsAfter]⟩
  refine ⟨[ ("title", assignment.title), ("description", assignment.description),
        ("dataset", assignment.dataset), ("status", .str "In Progress"),
        ("ownerId", .str currentUser.uid), ("createdAt", .num now),
        ("assignmentId", .str assignment.id) ], ?_, ?_, ?_, ?_, ?_, ?_, ?_, ?_, ?_⟩
  · cases fault <;> simp [Workspace.handleStartAssignment, addDocAttempts]
  · cases fault <;> simp [Workspace.handleStartAssignment]
  · simp [Fields.get, List.find?]
  · simp [Fields.get, List.find?]
  · simp [Fields.get, List.find?]
  · simp [Fields.get, List.find?]
  · simp [Fields.get, List.find?]
  · simp [Fields.get, List.find?]
  · intro hf
    subst hf
    simp [Workspace.handleStartAssignment, projectsAfter]

/-- Witness for C19: a student starts the assignment `a1` and the store accepts. -/
theorem start_assignment_creates_one_project_witness :
    projectsAfter []
        (Workspace.handleStartAssignment true none 9 { uid := "u1", email := .str "a@b.c" }
          { id := "a1", title := .str "Iris", description := .str "explore",
            dataset := .str "Iris" })
      = [[ ("title", .str "Iris"), ("description", .str "explore"), ("dataset", .str "Iris"),
           ("status", .str "In Progress"), ("ownerId", .str "u1"), ("createdAt", .num 9),
           ("assignmentId", .str "a1") ]] := by
  obtain ⟨fields, hattempt, _, _, _, _, _, _, _, hafter⟩ :=
    (start_assignment_creates_one_project none 9 { uid := "u1", email := .str "a@b.c" }
      { id := "a1", title := .str "Iris", description := .str "explore",
        dataset := .str "Iris" } []).1
  rw [hafter rfl]
  have h : addDocAttempts "projects"
      (Workspace.handleStartAssignment true none 9 { uid := "u1", email := .str "a@b.c" }
        { id := "a1", title := .str "Iris", description := .str "explore",
          dataset := .str "Iris" })
      = [[ ("title", .str "Iris"), ("description", .str "explore"), ("dataset", .str "Iris"),
           ("status", .str "In Progress"), ("ownerId", .str "u1"), ("createdAt", .num 9),
           ("assignmentId", .str "a1") ]] := by decide
  rw [h] at hattempt
  simpa using hattempt.symm

/-! ## `ExperimentDetail.fetchProject` -/

theorem fetchProject_custom_dataset (data : ProjectData) (isTeacher : Bool)
    (h : isCustomDataset data.dataset = true) :
    fetchProject (.ok (some data)) isTeacher =
      [ .setProject data, .setCode (initialCode data), .setActiveTab "builtin",
        .setSelectedDataset (datasetFilename data.dataset.toStr) ]
      ++ fetchProjectCatch isTeacher "setAgentMessage is not defined" := by
  have hscope : callInScope "setAgentMessage"
      (.setAgentMessage ("已自动加载任务数据集: " ++ (datasetFilename data.dataset.toStr).toStr))
      = .error "setAgentMessage is not defined" := by
    unfold callInScope
    rw [if_neg (by decide)]
    rfl
  simp [fetchProject, fetchProjectLoaded, h, hscope]

/-- C20 fails on the code: for the existing project on the dataset `custom:data.csv`
with no saved code, `fetchProject` selects `data.csv` and then calls `setAgentMessage`,
a name that is not declared in the component; the `ReferenceError` is caught by the
`catch` block, so no preview is requested, the load failure is alerted and the page
navigates away to `/`. -/
theorem custom_dataset_project_fails_to_open :
    fetchProject (.ok (some sampleCustomProject)) false =
      [ .setProject sampleCustomProject,
        .setCode (.str (customStarterCode (.str "data.csv"))),
        .setActiveTab "builtin",
        .setSelectedDataset (.str "data.csv"),
        .consoleError "Error fetching project:",
        .alert "加载实验失败: setAgentMessage is not defined",
        .alert "加载实验失败: setAgentMessage is not defined",
        .navigate "/" ] ∧
    (∀ e ∈ fetchProject (.ok (some sampleCustomProject)) false,
      e.isPreviewRequest = false) ∧
    (∃ e ∈ fetchProject (.ok (some sampleCustomProject)) false, e.isNavigate = true) := by
  have hcustom : isCustomDataset sampleCustomProject.dataset = true := by decide
  rw [fetchProject_custom_dataset sampleCustomProject false hcustom]
  refine ⟨rfl, ?_, ?_⟩
  · simp [fetchProjectCatch, DetailEffect.isPreviewRequest]
  · simp [fetchProjectCatch, DetailEffect.isNavigate]

/-! ## Client-side sorting -/

theorem sortInsert_perm {α : Type} (cmp : α → α → Int) (x : α) (l : List α) :
    (sortInsert cmp x l).Perm (x :: l) := by
  induction l with
  | nil => exact List.Perm.refl _
  | cons y ys ih =>
    unfold sortInsert
    split
    · exact List.Perm.refl _
    · exact (List.Perm.cons y ih).trans (List.Perm.swap x y ys)

theorem jsSort_perm {α : Type} (cmp : α → α → Int) (l : List α) : (jsSort cmp l).Perm l := by
  induction l with
  | nil => exact List.Perm.refl _
  | cons x xs ih => exact (sortInsert_perm cmp x _).trans (List.Perm.cons x ih)

theorem sortInsert_sorted {α : Type} (key : α → Int) (x : α) (l : List α)
    (h : l.Pairwise (fun a b => key b ≤ key a)) :
    (sortInsert (fun a b => key b - key a) x l).Pairwise (fun a b => key b ≤ key a) := by
  induction l with
  | nil => simp [sortInsert]
  | cons y ys ih =>
    rw [List.pairwise_cons] at h
    unfold sortInsert
    split
    · rename_i hle
      refine List.pairwise_cons.mpr ⟨?_, List.pairwise_cons.mpr h⟩
      intro b hb
      rcases List.mem_cons.mp hb with rfl | hb
      · omega
      · have := h.1 b hb
        omega
    · rename_i hgt
      refine List.pairwise_cons.mpr ⟨?_, ih h.2⟩
      intro b hb
      rcases List.mem_cons.mp ((sortInsert_perm _ x ys).subset hb) with rfl | hb
      · omega
      · exact h.1 b hb

theorem jsSort_sorted {α : Type} (key : α → Int) (l : List α) :
    (jsSort (fun a b => key b - key a) l).Pairwise (fun a b => key b ≤ key a) := by
  induction l with
  | nil => exact List.Pairwise.nil
  | cons x xs ih => exact sortInsert_sorted key x _ ih

theorem sortInsert_filter {α : Type} (key : α → Int) (k : Int) (x : α) (l : List α) :
    (sortInsert (fun a b => key b - key a) x l).filter (fun a => key a = k)
      = (x :: l).filter (fun a => key a = k) := by
  induction l with
  | nil => rfl
  | cons y ys ih =>
    unfold sortInsert
    split
    · rfl
    · rename_i hgt
      rw [List.filter_cons, ih]
      by_cases hx : key x = k
      · have hy : ¬ key y = k := by omega
        simp [List.filter_cons, hx, hy]
      · simp [List.filter_cons, hx]

theorem jsSort_stable {α : Type} (key : α → Int) (k : Int) (l : List α) :
    (jsSort (fun a b => key b - key a) l).filter (fun a => key a = k)
      = l.filter (fun a => key a = k) := by
  induction l with
  | nil => rfl
  | cons x xs ih =>
    show (sortInsert _ x (jsSort _ xs)).filter _ = _
    rw [sortInsert_filter, List.filter_cons, List.filter_cons, ih]

/-- C21: the list the workspace shows for projects (key `createdAt.seconds`) and the
lists `ExperimentDetail` and the snapshot view show for run logs (key
`timestamp.seconds`) are permutations of the input, in non-increasing order of the
key with a missing timestamp counting as 0, and the records of any one key keep their
input order. -/
theorem client_sort_newest_first (projectsData : List ProjectRow) (newLogs : List RunLog) :
    ((Workspace.sortProjects projectsData).Perm projectsData ∧
      (Workspace.sortProjects projectsData).Pairwise
        (fun a b => secondsOrZero b.createdAt ≤ secondsOrZero a.createdAt) ∧
      ∀ k : Int,
        (Workspace.sortProjects projectsData).filter (fun a => secondsOrZero a.createdAt = k)
          = projectsData.filter (fun a => secondsOrZero a.createdAt = k)) ∧
    ((sortRunLogs newLogs).Perm newLogs ∧
      (sortRunLogs newLogs).Pairwise
        (fun a b => secondsOrZero b.timestamp ≤ secondsOrZero a.timestamp) ∧
      ∀ k : Int,
        (sortRunLogs newLogs).filter (fun a => secondsOrZero a.timestamp = k)
          = newLogs.filter (fun a => secondsOrZero a.timestamp = k)) ∧
    ((Snapshot.sortRunLogs newLogs).Perm newLogs ∧
      (Snapshot.sortRunLogs newLogs).Pairwise
        (fun a b => secondsOrZero b.timestamp ≤ secondsOrZero a.timestamp) ∧
      ∀ k : Int,
        (Snapshot.sortRunLogs newLogs).filter (fun a => secondsOrZero a.timestamp = k)
          = newLogs.filter (fun a => secondsOrZero a.timestamp = k)) ∧
    secondsOrZero none = 0 :=
  ⟨⟨jsSort_perm _ _, jsSort_sorted (fun a : ProjectRow => secondsOrZero a.createdAt) _,
      fun k => jsSort_stable (fun a : ProjectRow => secondsOrZero a.createdAt) k _⟩,
   ⟨jsSort_perm _ _, jsSort_sorted (fun a : RunLog => secondsOrZero a.timestamp) _,
      fun k => jsSort_stable (fun a : RunLog => secondsOrZero a.timestamp) k _⟩,
   ⟨jsSort_perm _ _, jsSort_sorted (fun a : RunLog => secondsOrZero a.timestamp) _,
      fun k => jsSort_stable (fun a : RunLog => secondsOrZero a.timestamp) k _⟩,
   rfl⟩

/-! ## The assignment search -/

theorem beginsWith_iff (s t : List Char) : beginsWith s t = true ↔ ∃ post, s = t ++ post := by
  induction t generalizing s with
  | nil => simp [beginsWith]
  | cons d ds ih =>
    cases s with
    | nil => simp [beginsWith]
    | cons c cs =>
      simp only [beginsWith, Bool.and_eq_true, beq_iff_eq, ih, List.cons_append,
        List.cons.injEq]
      constructor
      · rintro ⟨rfl, post, rfl⟩
        exact ⟨post, rfl, rfl⟩
      · rintro ⟨post, rfl, rfl⟩
        exact ⟨rfl, post, rfl⟩

theorem includesChars_iff (s t : List Char) :
    includesChars s t = true ↔ ∃ pre post, s = pre ++ t ++ post := by
  induction s with
  | nil =>
    simp only [includesChars, beginsWith_iff]
    constructor
    · rintro ⟨post, h⟩
      exact ⟨[], post, by simpa using h⟩
    · rintro ⟨pre, post, h⟩
      have h1 : pre = [] := by
        cases pre with
        | nil => rfl
        | cons a as => simp at h
      subst h1
      exact ⟨post, by simpa using h⟩
  | cons c cs ih =>
    simp only [includesChars, Bool.or_eq_true, beginsWith_iff, ih]
    constructor
    · rintro (⟨post, h⟩ | ⟨pre, post, h⟩)
      · exact ⟨[], post, by simpa using h⟩
      · exact ⟨c :: pre, post, by simp [h]⟩
    · rintro ⟨pre, post, h⟩
      cases pre with
      | nil => exact Or.inl ⟨post, by simpa using h⟩
      | cons a as =>
        simp only [List.cons_append, List.cons.injEq] at h
        exact Or.inr ⟨as, post, by simpa using h.2⟩

/-- C22: `AssignmentList` shows the assignments, in their original order, that pass a
test which holds exactly when the lower-cased title, or the lower-cased description
when there is a non-empty one, contains the lower-cased search term as a contiguous
run of characters; with the empty term every assignment is shown. -/
theorem assignment_search (toLowerCase : String → String) (searchTerm : String)
    (assignments : List AssignmentItem) :
    (∃ test : AssignmentItem → Bool,
      AssignmentList.filtered toLowerCase searchTerm assignments = assignments.filter test ∧
      ∀ a, test a = true ↔
        ((∃ pre post,
            (toLowerCase a.title).data = pre ++ (toLowerCase searchTerm).data ++ post) ∨
          ∃ d, a.description = some d ∧ d ≠ "" ∧
            ∃ pre post,
              (toLowerCase d).data = pre ++ (toLowerCase searchTerm).data ++ post)) ∧
    (toLowerCase "" = "" → searchTerm = "" →
      AssignmentList.filtered toLowerCase searchTerm assignments = assignments) := by
  constructor
  · refine ⟨assignmentMatches toLowerCase searchTerm, rfl, ?_⟩
    intro a
    unfold assignmentMatches jsIncludes
    cases hd : a.description with
    | none => simp [includesChars_iff]
    | some d => simp [includesChars_iff]
  · intro hlow hterm
    subst hterm
    unfold AssignmentList.filtered
    rw [List.filter_eq_self]
    intro a _
    unfold assignmentMatches jsIncludes
    rw [hlow]
    have : includesChars (toLowerCase a.title).data "".data = true :=
      (includesChars_iff _ _).mpr ⟨[], (toLowerCase a.title).data, by simp⟩
    simp [this]

/-- Witness for C22: the empty term over two assignments, with ASCII lower-casing. -/
theorem assignment_search_witness :
    AssignmentList.filtered (fun s => ⟨s.data.map Char.toLower⟩) ""
        [ { id := "a1", title := "Iris Study", description := none },
          { id := "a2", title := "Titanic", description := some "Survival" } ]
      = [ { id := "a1", title := "Iris Study", description := none },
          { id := "a2", title := "Titanic", description := some "Survival" } ] :=
  (assignment_search (fun s => ⟨s.data.map Char.toLower⟩) "" _).2 rfl rfl

/-! ## Custom dataset references -/

theorem splitChars_of_not_mem (sep : Char) (l : List Char) (h : sep ∉ l) :
    splitChars sep l = [l] := by
  induction l with
  | nil => rfl
  | cons c cs ih =>
    have hc : c ≠ sep := fun hcs => h (hcs ▸ List.mem_cons_self _ _)
    have hcs : sep ∉ cs := fun hm => h (List.mem_cons_of_mem _ hm)
    simp [splitChars, hc, ih hcs]

theorem datasetFilename_customDatasetRef (filename : String) (h : ':' ∉ filename.data) :
    datasetFilename (customDatasetRef filename) = .str filename := by
  have hdata : (customDatasetRef filename).data
      = 'c' :: 'u' :: 's' :: 't' :: 'o' :: 'm' :: ':' :: filename.data := by
    unfold customDatasetRef
    rw [String.data_append]
    rfl
  unfold datasetFilename
  rw [hdata]
  simp [splitChars, splitChars_of_not_mem ':' filename.data h]

/-- C23 fails on the code: for the filename `a:b.csv` returned by the upload service,
`handlePublish` stores the dataset reference `custom:a:b.csv`, and the name
`ExperimentDetail` derives from it with `split(':')[1]`, both as `customDatasetName`
and as the filename handed to `loadDatasetPreview`, is `a`, not `a:b.csv`. -/
theorem custom_dataset_name_cut_at_colon :
    (addDocAttempts "assignments"
        (handlePublish (.response true "a:b.csv") none 0
          { title := "Task", description := "", datasetMode := "custom", dataset := "Iris",
            customFile := some { name := "a:b.csv", content := "x\n1" } })).map
        (fun fields => fields.get "dataset") = [.str "custom:a:b.csv"] ∧
    customDatasetRef "a:b.csv" = "custom:a:b.csv" ∧
    customDatasetName (.str "custom:a:b.csv") = .str "a" ∧
    datasetFilename "custom:a:b.csv" = .str "a" ∧
    JsVal.str "a" ≠ JsVal.str "a:b.csv" := by
  decide

/-! ## The monitor card and the report export -/

/-- C24 fails on the code: for a student whose project is recorded under the student's
email in the field `owner`, the monitor card picks that project as the active one
while the report export, which compares the email with `ownerId` instead, finds no
project at all. -/
theorem report_and_monitor_disagree :
    sampleStudent.role ≠ .str "teacher" ∧
    monitorActiveProject [sampleOwnedProject] sampleStudent = some sampleOwnedProject ∧
    reportActiveProject [sampleOwnedProject] sampleStudent = none := by
  decide

/-! ## The two grading paths -/

theorem grading_paths_agree_on_text (number : String → JsVal) (fault : Option String)
    (val : String) (st : SnapshotState) (p : ProjectDoc) (store : ProjectStore)
    (hval : val ≠ "") (hp : st.project = some p) :
    (Snapshot.handleGrade number fault { st with teacherScore := .str val } store).store
      = (teacherScoreOnBlur number fault val store).1 := by
  unfold Snapshot.handleGrade teacherScoreOnBlur
  cases fault <;> cases store <;> simp [hp, hval, updateDoc, JsVal.toNumber]

/-- C25 fails on the code: with the score field empty, `handleGrade` of the snapshot
view writes `teacherScore: 0` with status `graded`, while the `onBlur` handler of
`ExperimentDetail` writes nothing. -/
theorem empty_score_graded_as_zero :
    (Snapshot.handleGrade jsNumber none
        (Snapshot.fetchProject (.ok (some { sampleProject with status := .str "submitted" }))
          SnapshotState.initial).1
        (some { sampleProject with status := .str "submitted" })).store.map
        (fun d => (d.teacherScore, d.status)) = some (.num 0, .str "graded") ∧
    (teacherScoreOnBlur jsNumber none ""
        (some { sampleProject with status := .str "submitted" })).1
      = some { sampleProject with status := .str "submitted" } := by
  decide

/-! ## The display of scores -/

theorem score_shown_when_nonzero (n : Int) (hn : n ≠ 0) (p : ProjectDoc) (m : MonitorProject)
    (hp : p.selfScore = .num n) (hm : m.selfScore = .num n) (hpt : p.teacherScore = .num n)
    (hmt : m.teacherScore = .num n) :
    Snapshot.selfScoreText p = .num n ∧ Snapshot.teacherScoreText p = .num n ∧
    portfolioSelfScore m = .num n ∧ portfolioTeacherScore m = .num n ∧
    monitorSelfScore m = .num n ∧
    reportSelfScoreLine m = "- **Self Score**: " ++ toString n ∧
    reportTeacherScoreLine m = "- **Teacher Score**: " ++ toString n := by
  simp [Snapshot.selfScoreText, Snapshot.teacherScoreText, portfolioSelfScore,
    portfolioTeacherScore, monitorSelfScore, reportSelfScoreLine, reportTeacherScoreLine,
    JsVal.or, JsVal.truthy, JsVal.toStr, hp, hm, hpt, hmt, hn]

/-- C26 fails on the code: a project whose `selfScore` and `teacherScore` are the
number 0 is shown with the placeholders instead of 0: `N/A` and `-` in the snapshot
view, `-` in the portfolio list and on the monitor card, `N/A` in the report. -/
theorem zero_score_shown_as_placeholder :
    sampleOwnedProject.selfScore = .num 0 ∧ sampleOwnedProject.teacherScore = .num 0 ∧
    Snapshot.selfScoreText { sampleProject with selfScore := .num 0, teacherScore := .num 0 }
      = .str "N/A" ∧
    Snapshot.teacherScoreText
        { sampleProject with selfScore := .num 0, teacherScore := .num 0 } = .str "-" ∧
    portfolioSelfScore sampleOwnedProject = .str "-" ∧
    portfolioTeacherScore sampleOwnedProject = .str "-" ∧
    monitorSelfScore sampleOwnedProject = .str "-" ∧
    reportSelfScoreLine sampleOwnedProject = "- **Self Score**: N/A" ∧
    reportTeacherScoreLine sampleOwnedProject = "- **Teacher Score**: N/A" := by
  decide

end Coursework
